import Mathlib

/-!
Verification of the device-certification engine
(`packages/engine/src/device-certify.ts`) against its specification.

The engine's pure protocol logic is shallowly embedded here:

* byte sequences are `List Nat` (every byte is in 0..255 on the wire; the
  embedding applies `% 256` exactly where the TypeScript applies `& 0xff`);
* hex-string request templates from the truth dataset are represented by
  their parsed byte lists (`parseHexBytes` in the source is the injective
  bridge between the two representations);
* JavaScript `Map`s keyed by normalized code strings are association lists;
* `null`/`undefined` are `Option`; thrown configuration errors are `Except`;
* wall-clock timestamps and the UDP socket are outside the model: the
  execution loop's per-case decision logic is embedded as pure functions
  (`classifyCase`, `runCaseAction`) over the received bytes.
-/

set_option maxRecDepth 8192

/-! ## String helpers mirroring the JavaScript string operations -/

/-- Lowercase a string character by character (JS `toLowerCase` on the
ASCII command texts used by the engine). -/
def lowerStr (s : String) : String :=
  String.mk (s.toList.map Char.toLower)

/-- Uppercase a string character by character (JS `toUpperCase`). -/
def upperStr (s : String) : String :=
  String.mk (s.toList.map Char.toUpper)

/-- `startsWithList needle hay` is true when `needle` is an initial
segment of `hay` (JS `String.startsWith`). -/
def startsWithList : List Char → List Char → Bool
  | [], _ => true
  | _ :: _, [] => false
  | n :: ns, h :: hs => n == h && startsWithList ns hs

/-- `containsList needle hay` is true when `needle` occurs contiguously
inside `hay` (JS `String.includes`). -/
def containsList (needle : List Char) : List Char → Bool
  | [] => needle.isEmpty
  | h :: hs => startsWithList needle (h :: hs) || containsList needle hs

/-- JS `hay.includes(needle)`. -/
def containsStr (hay needle : String) : Bool :=
  containsList needle.toList hay.toList

/-- JS `s.startsWith(t)`. -/
def strStartsWith (s t : String) : Bool :=
  startsWithList t.toList s.toList

/-- JS `padStart(n, '0')` on a character list. -/
def padStartZeros (n : Nat) (cs : List Char) : List Char :=
  List.replicate (n - cs.length) '0' ++ cs

/-- A hexadecimal digit character (source regex `[0-9A-Fa-f]`). -/
def isHexChar (c : Char) : Bool :=
  c.isDigit || (('a' ≤ c) && (c ≤ 'f')) || (('A' ≤ c) && (c ≤ 'F'))

/-- Drop one leading `0x` / `0X` mark (source regex `^0x` with flag `i`). -/
def stripHexMark (cs : List Char) : List Char :=
  match cs with
  | '0' :: c :: rest => if c == 'x' || c == 'X' then rest else cs
  | _ => cs

/-- `normalizeCode` from the source: strip a leading `0x`, keep only hex
characters, uppercase, reject the empty result, left-pad to four digits
with zeros.  A `none` input (and the empty string, which is falsy in JS)
normalizes to `none`. -/
def normalizeCode (input : Option String) : Option String :=
  match input with
  | none => none
  | some s =>
    if s == "" then none
    else
      let cs := ((stripHexMark s.toList).filter isHexChar).map Char.toUpper
      if cs.isEmpty then none
      else some (String.mk (padStartZeros 4 cs))

/-- `toCode` from the source: normalize and prepend `0x`. -/
def toCode (code : Option String) : Option String :=
  (normalizeCode code).map (fun n => "0x" ++ n)

/-- Uppercase two-digit hex rendering of one byte (source
`byte.toString(16).padStart(2, '0').toUpperCase()`; all rendered values
are below 256). -/
def hexDigitChar (n : Nat) : Char :=
  if n < 10 then Char.ofNat ('0'.toNat + n) else Char.ofNat ('A'.toNat + (n - 10))

/-- Two-digit uppercase hex of a byte. -/
def byteHex (b : Nat) : String :=
  String.mk [hexDigitChar (b / 16 % 16), hexDigitChar (b % 16)]

/-- Four-digit uppercase hex of a 16-bit word (source
`toString(16).toUpperCase().padStart(4, '0')`). -/
def hex4 (n : Nat) : String :=
  String.mk [hexDigitChar (n / 4096 % 16), hexDigitChar (n / 256 % 16),
    hexDigitChar (n / 16 % 16), hexDigitChar (n % 16)]

/-- `bytesToHex` from the source: space-separated uppercase byte hex. -/
def bytesToHex (bytes : List Nat) : String :=
  String.intercalate " " (bytes.map byteHex)

/-! ## Enumerated types of the engine -/

/-- The four validation modes (source `ValidationMode`). -/
inductive ValidationMode where
  | STRICT_EXACT
  | STRUCTURE_ONLY
  | PARSED_RANGE
  | EXPECTED_NO_REPLY
deriving DecidableEq

/-- Rendering of a validation mode back to its wire string, used when the
source stores `policy.validationMode` into a record's `matchType`. -/
def validationModeName : ValidationMode → String
  | .STRICT_EXACT => "STRICT_EXACT"
  | .STRUCTURE_ONLY => "STRUCTURE_ONLY"
  | .PARSED_RANGE => "PARSED_RANGE"
  | .EXPECTED_NO_REPLY => "EXPECTED_NO_REPLY"

/-- Result status of a record (source `ResultStatus`). -/
inductive ResultStatus where
  | PASS
  | FAIL
  | NO_REPLY
  | SKIPPED
deriving DecidableEq

/-- Transport status (source `TransportStatus`). -/
inductive TransportStatus where
  | REPLY
  | NO_REPLY
deriving DecidableEq

/-- Status color (source `StatusColor`). -/
inductive StatusColor where
  | GREEN
  | YELLOW
  | RED
  | GRAY
deriving DecidableEq

/-- Run mode (source `RunMode`: `single`, `suite`, `sanity`, `issues`). -/
inductive RunMode where
  | single
  | suite
  | sanity
  | issues
deriving DecidableEq

/-- Device profile (source `ProfileName`: `exview-aio`, `generic`). -/
inductive ProfileName where
  | exviewAio
  | generic
deriving DecidableEq

/-- Case stage (source `'AUTO' | 'POWER_MANUAL'`). -/
inductive Stage where
  | AUTO
  | POWER_MANUAL
deriving DecidableEq

/-- Case provenance (source `'truth' | 'generated' | 'sanity'`). -/
inductive CaseSource where
  | truth
  | generated
  | sanity
deriving DecidableEq

/-! ## Data model -/

/-- One truth-dataset command row (source `TruthCommandRow`).  The request
and reply byte templates are stored already parsed from their hex strings. -/
structure TruthRow where
  rowNumber : Nat
  commandKey : String
  category : String
  description : String
  requestBytes : List Nat
  replyBytes : Option (List Nat)
  setCommandCode : Option String
  replyCommandCode : Option String
  instruction : String
  remark : String
  transport : Option String
  excludedReason : Option String
deriving DecidableEq

/-- Numeric synthesis spec (source `NumericSpec`). -/
structure NumericSpec where
  setCode : String
  valueIndex : Nat
  checksumIndex : Nat
  baseRow : TruthRow
  queryCode : Option String
  queryRow : Option TruthRow
deriving DecidableEq

/-- An executable certification case (source `CertifyCase`). -/
structure CertifyCase where
  id : String
  stage : Stage
  source : CaseSource
  category : String
  description : String
  commandKey : String
  setCode : Option String
  replyCode : Option String
  txBytes : List Nat
  expectedReplyBytes : Option (List Nat)
  generatedValue : Option Nat
  serialOnly : Bool
  isSetCommand : Bool
  isModeChangeCommand : Bool
  isPowerCommand : Bool
  isDisruptiveCommand : Bool
  closedLoopQueryRow : Option TruthRow
  expectedQueryValue : Option Nat
deriving DecidableEq

/-- Static per-code policy table entry (source `CommandPolicy`; optional
fields are `Option` with `none` for "not given"). -/
structure CommandPolicy where
  validationMode : ValidationMode
  parserCode : Option String := none
  note : Option String := none
  acceptAnyReplyCode : Option Bool := none
  allowNoReplyQuirk : Option Bool := none
  allowedReplyCodes : Option (List String) := none
deriving DecidableEq

/-- Resolved policy for one case (source `ResolvedPolicy`). -/
structure ResolvedPolicy where
  validationMode : ValidationMode
  parserCode : Option String
  note : Option String
  acceptAnyReplyCode : Bool
  allowNoReplyQuirk : Bool
  allowedReplyCodes : List String
deriving DecidableEq

/-- Decoded tail payload (source `PayloadDecode`). -/
structure PayloadDecode where
  markerIndex : Nat
  dataLength : Nat
  data : List Nat
  ambiguous : Bool
deriving DecidableEq

/-- Decoded reply (source `ReplyDecode`). -/
structure ReplyDecode where
  replyCode : Option String
  replyCodeIndex : Option Nat
  payload : Option PayloadDecode
deriving DecidableEq

/-- Structured JSON-like value for the heterogeneous `parsed` maps of the
semantic parsers (source `Record<string, unknown>`). -/
inductive JVal where
  | num (n : Int)
  | str (s : String)
  | list (xs : List JVal)

/-- Semantic parse result (source `ParseResult`). -/
structure ParseResult where
  ok : Bool
  parsed : Option (List (String × JVal))
  meaning : String
  value : Option Nat
  note : Option String := none

/-- One issue-file record (source `IssueRecord`).  The JSON `value` field
is modelled as an integer: every value the engine itself writes into an
issues file is an integer or null. -/
structure IssueRecord where
  commandKey : Option String
  setCode : Option String
  command : Option String
  value : Option Int
  status : Option String
  matchType : Option String
deriving DecidableEq

/-- Result record of one executed or skipped case (source `CertifyRecord`).
The wall-clock `time` field of the source is omitted: it is an environment
input with no protocol content. -/
structure CertifyRecord where
  stage : Stage
  source : CaseSource
  category : String
  command : String
  variant : String
  commandKey : String
  setCode : Option String
  replyCode : Option String
  txHex : Option String
  rxHex : Option String
  expectedHex : Option String
  latencyMs : Option Nat
  transportStatus : TransportStatus
  status : ResultStatus
  statusColor : StatusColor
  validationMode : ValidationMode
  matchType : String
  meaning : Option String
  parsed : Option (List (String × JVal))
  note : Option String
  skipReason : Option String
  value : Option Nat
  queryTxHex : Option String
  queryRxHex : Option String
  queryLatencyMs : Option Nat
  queryTransportStatus : Option TransportStatus
  queryValue : Option Nat
  expectedValue : Option Nat
  notes : List String

/-! ## Static tables -/

/-- Source `DISRUPTIVE_SET_CODES`. -/
def disruptiveSetCodes : List String := ["C003", "C007", "C009"]

/-- Source `NUMERIC_SET_CODES`: the eight numeric-capable set codes. -/
def numericSetCodes : List String :=
  ["C203", "C21F", "C217", "C223", "C227", "C22B", "C259", "C262"]

/-- Source `NUMERIC_VALUE_INDEX_BY_SET`: every registered numeric code maps
to value offset 38 and checksum offset 39. -/
def numericValueIndexBySet (code : String) : Option (Nat × Nat) :=
  if numericSetCodes.contains code then some (38, 39) else none

/-- Source `CLOSED_LOOP_QUERY_BY_SET`. -/
def closedLoopQueryBySet (code : String) : Option String :=
  if code == "C203" then some "C201"
  else if code == "C21F" then some "C21D"
  else if code == "C217" then some "C215"
  else if code == "C223" then some "C221"
  else if code == "C227" then some "C225"
  else if code == "C22B" then some "C229"
  else if code == "C259" then some "C257"
  else if code == "C262" then some "C264"
  else if code == "C20F" then some "C20D"
  else none

/-- Source `FORMULA_CHECKSUM_BASE`: linear checksum formula bases. -/
def formulaChecksumBase (code : String) : Option Nat :=
  if code == "C203" then some 0x5b
  else if code == "C21F" then some 0x77
  else none

/-- Source `ISSUE_STATUSES`. -/
def issueStatuses : List String := ["FAIL", "NO_REPLY", "SKIPPED"]

/-- Source `VIDEO_SOURCE_ENUM`. -/
def videoSourceEnum (n : Nat) : Option String :=
  match n with
  | 0 => some "Android"
  | 1 => some "Windows"
  | 2 => some "HDMI1"
  | 3 => some "HDMI2"
  | 4 => some "HDMI3"
  | 6 => some "HDMI4"
  | _ => none

/-- Source `SCENE_MODE_ENUM`. -/
def sceneModeEnum (n : Nat) : Option String :=
  match n with
  | 0 => some "Meeting"
  | 1 => some "Standard"
  | 2 => some "Soft"
  | 3 => some "Custom"
  | 5 => some "Cinema"
  | _ => none

/-- Source `DISPLAY_MODE_ENUM`. -/
def displayModeEnum (n : Nat) : Option String :=
  match n with
  | 1 => some "4:3"
  | 2 => some "16:9"
  | 3 => some "Full"
  | 4 => some "Original"
  | 7 => some "1:1"
  | _ => none

/-- Source `COLOR_TEMP_ENUM`. -/
def colorTempEnum (n : Nat) : Option String :=
  match n with
  | 1 => some "Standard"
  | 2 => some "Warm"
  | 3 => some "Cool"
  | 4 => some "User"
  | _ => none

/-- Source `COMMAND_POLICY_BY_CODE`: the static per-reply-code policy
table, keyed by normalized code. -/
def commandPolicyByCode (code : String) : Option CommandPolicy :=
  if code == "C201" then some { validationMode := .PARSED_RANGE, parserCode := some "C201" }
  else if code == "C215" then some { validationMode := .PARSED_RANGE, parserCode := some "C215" }
  else if code == "C221" then some { validationMode := .PARSED_RANGE, parserCode := some "C221" }
  else if code == "C211" then some { validationMode := .PARSED_RANGE, parserCode := some "C211" }
  else if code == "C225" then some { validationMode := .PARSED_RANGE, parserCode := some "C221" }
  else if code == "C229" then some { validationMode := .PARSED_RANGE, parserCode := some "C221" }
  else if code == "C21D" then some { validationMode := .PARSED_RANGE, parserCode := some "C201" }
  else if code == "C257" then some { validationMode := .PARSED_RANGE, parserCode := some "C201" }
  else if code == "C264" then some { validationMode := .PARSED_RANGE, parserCode := some "C201" }
  else if code == "C243" then some { validationMode := .PARSED_RANGE, parserCode := some "C243" }
  else if code == "C25B" then some { validationMode := .PARSED_RANGE, parserCode := some "C25B" }
  else if code == "C241" then some { validationMode := .PARSED_RANGE, parserCode := some "C241" }
  else if code == "C131" then
    some { validationMode := .STRUCTURE_ONLY, parserCode := some "C131",
           acceptAnyReplyCode := some true, allowedReplyCodes := some ["C332"] }
  else if code == "C33D" then some { validationMode := .PARSED_RANGE, parserCode := some "C33D" }
  else if code == "C005" then
    some { validationMode := .EXPECTED_NO_REPLY, parserCode := some "C005",
           allowNoReplyQuirk := some true,
           note := some "Known device quirk around standby/wake transitions; no reply can be expected." }
  else none

/-! ## Frame codec -/

/-- `computePdfChecksum` from the source: sum of the bytes at offsets 8
through `length - 2` inclusive, reduced mod 256 at every step; 0 for
sequences shorter than 10 bytes. -/
def computePdfChecksum (bytes : List Nat) : Nat :=
  if bytes.length < 10 then 0
  else ((bytes.drop 8).take (bytes.length - 9)).foldl (fun s b => (s + b) % 256) 0

/-- `equalBytes` from the source: same length and same bytes. -/
def equalBytes (a b : List Nat) : Bool :=
  a == b

/-- `equalIgnoringChecksum` from the source: same nonzero length and same
bytes at every offset except the last. -/
def equalIgnoringChecksum (a b : List Nat) : Bool :=
  a.length == b.length && !(a.length == 0) && a.dropLast == b.dropLast

/-- `isUdpLike` from the source: at least 10 bytes and a 7-byte `0x55`
synchronization header. -/
def isUdpLike (bytes : List Nat) : Bool :=
  decide (10 ≤ bytes.length) && (List.range 7).all (fun i => bytes.getD i 0 == 0x55)

/-- The indices visited by `extractTailPayload`'s backward scan: from
`length - 4` down to `max 0 (length - 96)` (natural subtraction supplies
the `max 0`). -/
def tailScanIndices (bytes : List Nat) : List Nat :=
  let minIndex := bytes.length - 96
  (List.range' minIndex (bytes.length - 3 - minIndex)).reverse

/-- The candidate test of `extractTailPayload`'s scan at index `i`: marker
bytes `00 <len> 00` whose implied payload end `i + 3 + len` equals
`length - 1`.  All three reads are in bounds on every scanned index. -/
def isTailCandidate (bytes : List Nat) (i : Nat) : Bool :=
  bytes.getD i 0 == 0x00 && bytes.getD (i + 2) 0 == 0x00 &&
    i + 3 + bytes.getD (i + 1) 0 == bytes.length - 1

/-- `extractTailPayload` from the source: sequences shorter than 6 bytes
decode to `null`; otherwise the backward scan collects candidates, the
first one found (nearest the tail) is selected, and `ambiguous` records
whether more than one candidate exists. -/
def extractTailPayload (bytes : List Nat) : Option PayloadDecode :=
  if bytes.length < 6 then none
  else
    match (tailScanIndices bytes).filter (isTailCandidate bytes) with
    | [] => none
    | i :: rest =>
      let len := bytes.getD (i + 1) 0
      some { markerIndex := i, dataLength := len,
             data := (bytes.drop (i + 3)).take len,
             ambiguous := decide (0 < rest.length) }

/-- Modelled from the spec's words for `extractPayload` (claim C3): the
described backward scan with candidate selection and ambiguity flag, with
no guard on short sequences — the spec sentence quantifies over every byte
sequence.  Used only as the comparand of the refinement theorem for C3. -/
def extractPayloadSpec (bytes : List Nat) : Option PayloadDecode :=
  match (tailScanIndices bytes).filter (isTailCandidate bytes) with
  | [] => none
  | i :: rest =>
    let len := bytes.getD (i + 1) 0
    some { markerIndex := i, dataLength := len,
           data := (bytes.drop (i + 3)).take len,
           ambiguous := decide (0 < rest.length) }

/-- `decodeReplyCode` from the source: scan offsets 8 through
`min (length - 3) 40` for the marker byte `0xD0`; at the first hit return
the rendered code (high byte first) and the marker index; otherwise
not-found (`none`), a normal outcome. -/
def decodeReplyCode (bytes : List Nat) : Option (String × Nat) :=
  let maxScan := min (bytes.length - 3) 40
  match (List.range' 8 (maxScan + 1 - 8)).find? (fun i => bytes.getD i 0 == 0xd0) with
  | some i =>
    some (upperStr (byteHex (bytes.getD (i + 2) 0) ++ byteHex (bytes.getD (i + 1) 0)), i)
  | none => none

/-- `decodeReply` from the source. -/
def decodeReply (bytes : List Nat) : ReplyDecode :=
  let code := decodeReplyCode bytes
  { replyCode := code.map (fun c => c.1)
    replyCodeIndex := code.map (fun c => c.2)
    payload := extractTailPayload bytes }

/-- `parseAckStatus` from the source: little-endian 16-bit status word from
the first two payload bytes, when a payload with at least two bytes was
decoded. -/
def parseAckStatus (payload : Option PayloadDecode) : Option Nat :=
  match payload with
  | none => none
  | some p =>
    if p.data.length < 2 then none
    else some (p.data.getD 0 0 ||| (p.data.getD 1 0 <<< 8))

/-! ## Text-heuristic classifiers -/

/-- `isSetCommand` from the source. -/
def isSetCommandRow (row : TruthRow) : Bool :=
  strStartsWith (lowerStr row.category) "set "

/-- `isModeChangeCommand` from the source. -/
def isModeChangeCommandRow (row : TruthRow) : Bool :=
  let text := lowerStr (row.category ++ " " ++ row.description ++ " " ++ row.instruction)
  containsStr text "video source" || containsStr text "screen display" ||
    containsStr text "split screen" ||
    (containsStr text "set " && containsStr text "mode")

/-- `isPowerCommand` from the source: normalized set code in the
disruptive-set-code table. -/
def isPowerCommandRow (row : TruthRow) : Bool :=
  match normalizeCode row.setCommandCode with
  | none => false
  | some code => disruptiveSetCodes.contains code

/-- `isDisruptiveCommand` from the source: text heuristic over category,
description and remark. -/
def isDisruptiveCommandRow (row : TruthRow) : Bool :=
  let text := lowerStr (row.category ++ " " ++ row.description ++ " " ++ row.remark)
  containsStr text "sleep" || containsStr text "standby" ||
    containsStr text "restart" || containsStr text "power off"

/-- `isSerialOnly` from the source. -/
def isSerialOnlyRow (row : TruthRow) (txBytes : List Nat) : Bool :=
  let transport := upperStr (row.transport.getD "")
  if containsStr transport "SERIAL" then true
  else
    let combined := lowerStr (row.remark ++ " " ++ row.instruction ++ " " ++ row.excludedReason.getD "")
    if containsStr combined "serial only" || containsStr combined "serial-only" then true
    else if containsStr combined "does not support udp" then true
    else if containsStr combined "excluded" && containsStr combined "serial" then true
    else if !isUdpLike txBytes then true
    else false

/-- `valueLabel` from the source. -/
def valueLabel (setCode : Option String) : String :=
  match normalizeCode setCode with
  | none => "value"
  | some n =>
    if n == "C203" then "volume"
    else if n == "C21F" then "brightness"
    else if n == "C217" then "contrast"
    else if n == "C223" then "redGain"
    else if n == "C227" then "greenGain"
    else if n == "C22B" then "blueGain"
    else if n == "C259" then "saturation"
    else if n == "C262" then "hue"
    else "value"

/-! ## Semantic parsers -/

/-- `parseRangeValue` from the source (`lo`/`hi` are the source's
`min`/`max` parameters). -/
def parseRangeValue (label : String) (data : List Nat) (lo hi : Nat) : ParseResult :=
  if data.length < 1 then
    { ok := false, parsed := none, meaning := label ++ ": missing payload", value := none }
  else
    let value := data.getD 0 0
    let ok := lo ≤ value && value ≤ hi
    { ok
      parsed := some [(label, JVal.num value)]
      meaning := label ++ "=" ++ toString value
      value := some value
      note := if ok then none
        else some (label ++ " out of range (" ++ toString value ++ ", expected " ++
          toString lo ++ "-" ++ toString hi ++ ")") }

/-- `parseEnumValue` from the source. -/
def parseEnumValue (label : String) (data : List Nat) (map : Nat → Option String) : ParseResult :=
  if data.length < 1 then
    { ok := false, parsed := none, meaning := label ++ ": missing payload", value := none }
  else
    let value :=
      if 2 ≤ data.length && data.getD 0 0 == 0x00 && !(data.getD 1 0 == 0x00) then data.getD 1 0
      else data.getD 0 0
    match map value with
    | none =>
      { ok := false
        parsed := some [(label, JVal.num value)]
        meaning := label ++ "=unknown(" ++ toString value ++ ")"
        value := some value
        note := some (label ++ " value is outside enum set") }
    | some text =>
      { ok := true
        parsed := some [(label, JVal.num value), (label ++ "Text", JVal.str text)]
        meaning := label ++ "=" ++ text ++ "(" ++ toString value ++ ")"
        value := some value }

/-- One match of `parseHdmiPresenceFromFrame`'s whole-frame scan. -/
structure HdmiMatch where
  index : Nat
  len : Nat
  payload : List Nat
deriving DecidableEq

/-- JS `Array.reduce` used by `parseHdmiPresenceFromFrame` to select the
match with the greatest index. -/
def selectBestHdmiMatch (first : HdmiMatch) (rest : List HdmiMatch) : HdmiMatch :=
  rest.foldl (fun best item => if best.index < item.index then item else best) first

/-- `parseHdmiPresenceFromFrame` from the source: scan the whole frame for
a 16-bit big-endian length followed by `0x00` whose payload ends right
before the final checksum byte; prefer length-4 matches; select the match
nearest the tail; require the four flags to each be 0 or 1. -/
def parseHdmiPresenceFromFrame (bytes : List Nat) : ParseResult :=
  let scanMatches := (List.range (bytes.length - 4 + 1)).filterMap (fun index =>
    let len := (bytes.getD index 0 <<< 8) ||| bytes.getD (index + 1) 0
    if !(bytes.getD (index + 2) 0 == 0x00) then none
    else if !(index + 3 + len == bytes.length - 1) then none
    else some ({ index, len, payload := (bytes.drop (index + 3)).take len } : HdmiMatch))
  match scanMatches with
  | [] =>
    { ok := false, parsed := some [("raw", JVal.str (bytesToHex bytes))]
      meaning := "hdmiPresence: tail length marker not found", value := none }
  | m :: ms =>
    let len4Matches := (m :: ms).filter (fun item => item.len == 4)
    let selected :=
      match len4Matches with
      | [] => selectBestHdmiMatch m ms
      | l :: ls => selectBestHdmiMatch l ls
    if !(selected.len == 4) then
      { ok := false
        parsed := some [("tailLength", JVal.num selected.len),
          ("payload", JVal.list (selected.payload.map (fun b => JVal.num b)))]
        meaning := "hdmiPresence payload length=" ++ toString selected.len ++ ", expected=4"
        value := none }
    else
      let flags := selected.payload
      if flags.any (fun item => !(item == 0) && !(item == 1)) then
        { ok := false
          parsed := some [("payload", JVal.list (flags.map (fun b => JVal.num b)))]
          meaning := "hdmiPresence raw=" ++ String.intercalate "," (flags.map toString)
          value := none
          note := some "Expected each HDMI flag to be 0 or 1" }
      else
        { ok := true
          parsed := some [("hdmi1", JVal.num (flags.getD 0 0)),
            ("hdmi2", JVal.num (flags.getD 1 0)),
            ("hdmi3", JVal.num (flags.getD 2 0)),
            ("hdmi4", JVal.num (flags.getD 3 0)),
            ("payloadHex", JVal.str (bytesToHex flags)),
            ("activeInputs", JVal.list
              (((["HDMI1", "HDMI2", "HDMI3", "HDMI4"].zip flags).filterMap
                (fun p => if p.2 == 1 then some (JVal.str p.1) else none))))]
          meaning := "HDMI1=" ++ (if !(flags.getD 0 0 == 0) then "signal" else "no-signal") ++
            ", HDMI2=" ++ (if !(flags.getD 1 0 == 0) then "signal" else "no-signal") ++
            ", HDMI3=" ++ (if !(flags.getD 2 0 == 0) then "signal" else "no-signal") ++
            ", HDMI4=" ++ (if !(flags.getD 3 0 == 0) then "signal" else "no-signal")
          value := none }

/-- `parseSemanticByCode` from the source: dispatch on the parser selector. -/
def parseSemanticByCode (parserCode : String) (data : List Nat) : ParseResult :=
  if parserCode == "C201" then
    if !(data.length == 1) then
      { ok := false, parsed := some [("raw", JVal.list (data.map (fun b => JVal.num b)))]
        meaning := "volume payload length=" ++ toString data.length ++ ", expected=1", value := none }
    else parseRangeValue "volume" data 0 100
  else if parserCode == "C215" then
    if !(data.length == 1) then
      { ok := false, parsed := some [("raw", JVal.list (data.map (fun b => JVal.num b)))]
        meaning := "contrast payload length=" ++ toString data.length ++ ", expected=1", value := none }
    else parseRangeValue "contrast" data 0 100
  else if parserCode == "C221" then
    if !(data.length == 1) then
      { ok := false, parsed := some [("raw", JVal.list (data.map (fun b => JVal.num b)))]
        meaning := "redGain payload length=" ++ toString data.length ++ ", expected=1", value := none }
    else parseRangeValue "redGain" data 0 100
  else if parserCode == "C211" then
    if !(data.length == 1) then
      { ok := false, parsed := some [("raw", JVal.list (data.map (fun b => JVal.num b)))]
        meaning := "videoSource payload length=" ++ toString data.length ++ ", expected=1", value := none }
    else parseEnumValue "videoSource" data videoSourceEnum
  else if parserCode == "C243" then
    if !(data.length == 1) then
      { ok := false, parsed := some [("raw", JVal.list (data.map (fun b => JVal.num b)))]
        meaning := "sceneMode payload length=" ++ toString data.length ++ ", expected=1", value := none }
    else parseEnumValue "sceneMode" data sceneModeEnum
  else if parserCode == "C20D" then
    parseEnumValue "displayMode" data displayModeEnum
  else if parserCode == "C020" then
    parseEnumValue "trueStandby" data
      (fun n => if n == 0 then some "TrueStandby" else if n == 1 then some "NormalOperation" else none)
  else if parserCode == "C005" then
    if !(data.length == 1) then
      { ok := false, parsed := none, meaning := "sleepWake: missing payload", value := none }
    else
      let flag := data.getD 0 0
      if flag == 0x80 then
        { ok := true
          parsed := some [("sleepWakeFlag", JVal.num flag), ("state", JVal.str "Awake")]
          meaning := "sleepWake=Awake(0x80)", value := some flag }
      else if flag == 0x00 then
        { ok := true
          parsed := some [("sleepWakeFlag", JVal.num flag), ("state", JVal.str "Blackout")]
          meaning := "sleepWake=Blackout(0x00)", value := some flag }
      else
        { ok := false
          parsed := some [("sleepWakeFlag", JVal.num flag)]
          meaning := "sleepWake=unknown(0x" ++ byteHex flag ++ ")"
          value := some flag
          note := some "Expected 0x80 (awake) or 0x00 (blackout)" }
  else if parserCode == "C25B" then
    if !(data.length == 4) then
      { ok := false, parsed := some [("raw", JVal.list (data.map (fun b => JVal.num b)))]
        meaning := "hdmiPresence payload length=" ++ toString data.length ++ ", expected=4", value := none }
    else
      let flags := data.take 4
      if flags.any (fun item => !(item == 0) && !(item == 1)) then
        { ok := false
          parsed := some [("raw", JVal.list (flags.map (fun b => JVal.num b)))]
          meaning := "hdmiPresence raw=" ++ String.intercalate "," (flags.map toString)
          value := none
          note := some "Expected each HDMI flag to be 0 or 1" }
      else
        { ok := true
          parsed := some [("hdmi1", JVal.num (flags.getD 0 0)), ("hdmi2", JVal.num (flags.getD 1 0)),
            ("hdmi3", JVal.num (flags.getD 2 0)), ("hdmi4", JVal.num (flags.getD 3 0))]
          meaning := "hdmi1=" ++ toString (flags.getD 0 0) ++ " hdmi2=" ++ toString (flags.getD 1 0) ++
            " hdmi3=" ++ toString (flags.getD 2 0) ++ " hdmi4=" ++ toString (flags.getD 3 0)
          value := none }
  else if parserCode == "C241" then
    if !(data.length == 7) then
      { ok := false, parsed := some [("raw", JVal.list (data.map (fun b => JVal.num b)))]
        meaning := "videoCombo payload length=" ++ toString data.length ++ ", expected=7", value := none }
    else
      let brightness := data.getD 0 0
      let colorTemp := data.getD 1 0
      let displayMode := data.getD 2 0
      let videoSource := data.getD 3 0
      let volume := data.getD 4 0
      let contrast := data.getD 5 0
      let sceneMode := data.getD 6 0
      -- the source also checks each byte against a lower bound of 0,
      -- which is vacuous for byte values
      let errors :=
        (if 100 < brightness then ["brightness out of range"] else []) ++
        (if (colorTempEnum colorTemp).isNone then ["colorTemp invalid"] else []) ++
        (if (displayModeEnum displayMode).isNone then ["displayMode invalid"] else []) ++
        (if (videoSourceEnum videoSource).isNone then ["videoSource invalid"] else []) ++
        (if 100 < volume then ["volume out of range"] else []) ++
        (if 100 < contrast then ["contrast out of range"] else []) ++
        (if (sceneModeEnum sceneMode).isNone then ["sceneMode invalid"] else [])
      let videoSourceText := (videoSourceEnum videoSource).getD "unknown"
      { ok := errors.isEmpty
        parsed := some [("brightness", JVal.num brightness),
          ("colorTemp", JVal.num colorTemp),
          ("colorTempText", JVal.str ((colorTempEnum colorTemp).getD "unknown")),
          ("displayMode", JVal.num displayMode),
          ("displayModeText", JVal.str ((displayModeEnum displayMode).getD "unknown")),
          ("videoSource", JVal.num videoSource),
          ("videoSourceText", JVal.str videoSourceText),
          ("volume", JVal.num volume),
          ("contrast", JVal.num contrast),
          ("sceneMode", JVal.num sceneMode),
          ("sceneModeText", JVal.str ((sceneModeEnum sceneMode).getD "unknown"))]
        meaning := "brightness=" ++ toString brightness ++ " source=" ++ videoSourceText ++
          " volume=" ++ toString volume ++ " contrast=" ++ toString contrast
        value := none
        note := if errors.isEmpty then none else some (String.intercalate "; " errors) }
  else if parserCode == "C131" then
    if data.length < 6 then
      { ok := false, parsed := none
        meaning := "screenMonitoring: payload too short (" ++ toString data.length ++ ")"
        value := none }
    else
      let status := data.getD 0 0 ||| (data.getD 1 0 <<< 8)
      let dataSource := data.getD 2 0
      let numPorts := data.getD 3 0
      let totalCabinets := data.getD 4 0 ||| (data.getD 5 0 <<< 8)
      let requiredLength := 6 + numPorts + totalCabinets * 6
      let okStatus := status == 0x0001 || status == 0x0002
      let countsSane := numPorts ≤ 64 && totalCabinets ≤ 4096
      let okLength := requiredLength ≤ data.length
      let perPortCounts := (data.drop 6).take numPorts
      let overallSane := okStatus && countsSane
      let notes :=
        (if !okStatus then ["status not in \x7b0x0001,0x0002\x7d: 0x" ++ hex4 status] else []) ++
        (if !countsSane then
          ["implausible counts: ports=" ++ toString numPorts ++ ", cabinets=" ++ toString totalCabinets]
          else []) ++
        (if !okLength then
          ["payload shorter than declared structure: " ++ toString data.length ++ " < " ++ toString requiredLength]
          else [])
      { ok := overallSane
        parsed := some [("status", JVal.num status), ("dataSource", JVal.num dataSource),
          ("numPorts", JVal.num numPorts), ("totalCabinets", JVal.num totalCabinets),
          ("requiredLength", JVal.num requiredLength), ("payloadLength", JVal.num data.length),
          ("perPortCounts", JVal.list (perPortCounts.map (fun b => JVal.num b)))]
        meaning := "status=0x" ++ hex4 status ++ " ports=" ++ toString numPorts ++
          " totalCabinets=" ++ toString totalCabinets
        value := none
        note := if notes.isEmpty then none else some (String.intercalate "; " notes) }
  else if parserCode == "C33D" then
    if !(data.length == 4) then
      { ok := false, parsed := some [("raw", JVal.list (data.map (fun b => JVal.num b)))]
        meaning := "uptime payload length=" ++ toString data.length ++ ", expected=4", value := none }
    else
      let minutes := data.getD 0 0 ||| (data.getD 1 0 <<< 8) ||| (data.getD 2 0 <<< 16) ||| (data.getD 3 0 <<< 24)
      { ok := true
        parsed := some [("minutes", JVal.num minutes)]
        meaning := "uptimeMinutes=" ++ toString minutes
        value := some minutes }
  else
    { ok := false, parsed := none
      meaning := "No semantic parser for " ++ parserCode, value := none }

/-! ## Policy resolution and reply-code acceptance -/

/-- The category-text heuristic inside `resolvePolicy`: the lowercased
category/description text contains `query scene mode`. -/
def sceneModeHeuristic (caseItem : CertifyCase) : Bool :=
  containsStr (lowerStr (caseItem.category ++ " " ++ caseItem.description)) "query scene mode"

/-- `resolvePolicy` from the source.  The profile parameter is unused by
the source as well (`_profile`). -/
def resolvePolicy (caseItem : CertifyCase) (_profile : ProfileName) : ResolvedPolicy :=
  let setCode := normalizeCode caseItem.setCode
  let base := setCode.bind commandPolicyByCode
  let validationMode := (base.map (fun b => b.validationMode)).getD .STRICT_EXACT
  let parserCode :=
    match base with
    | some b => match b.parserCode with
      | some q => some q
      | none => setCode
    | none => setCode
  let note := base.bind (fun b => b.note)
  let acceptAnyReplyCode := (base.bind (fun b => b.acceptAnyReplyCode)).getD false
  let allowNoReplyQuirk := (base.bind (fun b => b.allowNoReplyQuirk)).getD false
  let allowedReplyCodes := (base.bind (fun b => b.allowedReplyCodes)).getD []
  if base.isNone && sceneModeHeuristic caseItem then
    { validationMode := .PARSED_RANGE, parserCode := some "C243", note,
      acceptAnyReplyCode, allowNoReplyQuirk, allowedReplyCodes }
  else
    { validationMode, parserCode, note, acceptAnyReplyCode, allowNoReplyQuirk, allowedReplyCodes }

/-- The accepted reply-code set built by `isReplyCodeAccepted`: the
normalized expected code of the case plus the normalized allowed codes of
the policy. -/
def acceptedReplyCodes (expected : Option String) (allowed : List String) : List String :=
  (normalizeCode expected).toList ++ allowed.filterMap (fun a => normalizeCode (some a))

/-- `isReplyCodeAccepted` from the source: empty accepted set accepts
everything; otherwise the decoded code must be present (a missing decoded
code is rejected). -/
def isReplyCodeAccepted (expected : Option String) (actualNormalized : Option String)
    (allowed : List String) : Bool :=
  let accepted := acceptedReplyCodes expected allowed
  if accepted.isEmpty then true
  else
    match actualNormalized with
    | none => false
    | some a => accepted.contains a

/-! ## Numeric synthesis and case construction -/

/-- `buildGeneratedNumericCase` from the source: copy the baseline request,
patch the value byte (`& 0xff`), then patch the checksum byte with the
linear formula when one is registered for the code, else with the generic
checksum of the patched bytes. -/
def buildGeneratedNumericCase (spec : NumericSpec) (value : Nat) (source : CaseSource) : CertifyCase :=
  let tx1 := spec.baseRow.requestBytes.set spec.valueIndex (value % 256)
  let txBytes :=
    match formulaChecksumBase spec.setCode with
    | some base => tx1.set spec.checksumIndex ((base + value) % 256)
    | none => tx1.set spec.checksumIndex (computePdfChecksum tx1)
  { id := spec.baseRow.commandKey ++ ":gen-" ++ toString value
    stage := if disruptiveSetCodes.contains spec.setCode then .POWER_MANUAL else .AUTO
    source
    category := spec.baseRow.category
    description := valueLabel (toCode (some spec.setCode)) ++ "=" ++ toString value
    commandKey := spec.baseRow.commandKey ++ ":gen-" ++ toString value
    setCode := toCode (some spec.setCode)
    replyCode := spec.baseRow.replyCommandCode
    txBytes
    expectedReplyBytes := spec.baseRow.replyBytes
    generatedValue := some value
    serialOnly := false
    isSetCommand := true
    isModeChangeCommand := isModeChangeCommandRow spec.baseRow
    isPowerCommand := false
    isDisruptiveCommand := false
    closedLoopQueryRow := spec.queryRow
    expectedQueryValue := some value }

/-- `buildCaseFromTruthRow` from the source. -/
def buildCaseFromTruthRow (row : TruthRow) (source : CaseSource) : CertifyCase :=
  let txBytes := row.requestBytes
  let setCode := normalizeCode row.setCommandCode
  let expectedQueryValue :=
    if setCode == some "C20F" && decide (38 < txBytes.length) then some (txBytes.getD 38 0) else none
  { id := row.commandKey
    stage := if isPowerCommandRow row then .POWER_MANUAL else .AUTO
    source
    category := row.category
    description :=
      if !(row.description == "") then row.description
      else if !(row.remark == "") then row.remark
      else row.commandKey
    commandKey := row.commandKey
    setCode := row.setCommandCode
    replyCode := row.replyCommandCode
    txBytes
    expectedReplyBytes := row.replyBytes
    generatedValue := none
    serialOnly := isSerialOnlyRow row txBytes
    isSetCommand := isSetCommandRow row
    isModeChangeCommand := isModeChangeCommandRow row
    isPowerCommand := isPowerCommandRow row
    isDisruptiveCommand := isDisruptiveCommandRow row
    closedLoopQueryRow := none
    expectedQueryValue }

/-- Lookup in an association list keyed by normalized code strings
(modelling JS `Map.get`). -/
def lookupSpec (specs : List (String × NumericSpec)) (code : String) : Option NumericSpec :=
  (specs.find? (fun p => p.1 == code)).map (fun p => p.2)

/-- Lookup of the truth rows grouped by set code (JS `bySetCode.get`). -/
def lookupRows (bySetCode : List (String × List TruthRow)) (code : String) : Option (List TruthRow) :=
  (bySetCode.find? (fun p => p.1 == code)).map (fun p => p.2)

/-- Lookup of a truth row by command key (JS `byKey.get`). -/
def lookupRowByKey (byKey : List (String × TruthRow)) (key : String) : Option TruthRow :=
  (byKey.find? (fun p => p.1 == key)).map (fun p => p.2)

/-- `deriveNumericSpecs` from the source, over the registered numeric
codes in table order; configuration errors (`throw` in the source) become
`Except.error`. -/
def deriveNumericSpecsGo (bySetCode : List (String × List TruthRow)) :
    List String → Except String (List (String × NumericSpec))
  | [] => .ok []
  | code :: rest =>
    let rows := (lookupRows bySetCode code).getD []
    match rows with
    | [] => deriveNumericSpecsGo bySetCode rest
    | baseRow :: _ =>
      match numericValueIndexBySet code with
      | none => .error ("Missing manual numeric index for 0x" ++ code)
      | some (valueIndex, checksumIndex) =>
        let txBytes := baseRow.requestBytes
        if txBytes.length ≤ valueIndex || txBytes.length ≤ checksumIndex then
          .error ("Manual index out of bounds for 0x" ++ code ++ ": request length=" ++ toString txBytes.length)
        else if !(checksumIndex == txBytes.length - 1) then
          .error ("Manual checksum index is not last byte for 0x" ++ code)
        else
          match deriveNumericSpecsGo bySetCode rest with
          | .error e => .error e
          | .ok tail =>
            let queryCode := closedLoopQueryBySet code
            let queryRow := queryCode.bind (fun qc => ((lookupRows bySetCode qc).getD []).head?)
            .ok ((code, { setCode := code, valueIndex, checksumIndex, baseRow, queryCode, queryRow }) :: tail)

/-- `deriveNumericSpecs` from the source. -/
def deriveNumericSpecs (bySetCode : List (String × List TruthRow)) :
    Except String (List (String × NumericSpec)) :=
  deriveNumericSpecsGo bySetCode numericSetCodes

/-! ## Suite, single and issues case builders -/

/-- The row-iteration loop of `buildSuiteCases`: a numeric row whose code
has not been generated yet expands to the 101-value sweep; later rows with
the same code are dropped; every other row becomes one truth case. -/
def buildSuiteLoop (specs : List (String × NumericSpec)) :
    List TruthRow → List String → List CertifyCase
  | [], _ => []
  | row :: rest, genSet =>
    match normalizeCode row.setCommandCode with
    | some sc =>
      match lookupSpec specs sc with
      | some spec =>
        if genSet.contains sc then buildSuiteLoop specs rest genSet
        else
          ((List.range 101).map (fun v => buildGeneratedNumericCase spec v .generated)) ++
            buildSuiteLoop specs rest (sc :: genSet)
      | none => buildCaseFromTruthRow row .truth :: buildSuiteLoop specs rest genSet
    | none => buildCaseFromTruthRow row .truth :: buildSuiteLoop specs rest genSet

/-- `buildSuiteCases` from the source: expand the rows, then move the
power cases (`isPowerCommand`) behind all other cases. -/
def buildSuiteCases (rows : List TruthRow) (specs : List (String × NumericSpec)) : List CertifyCase :=
  let cases := buildSuiteLoop specs rows []
  cases.filter (fun c => !c.isPowerCommand) ++ cases.filter (fun c => c.isPowerCommand)

/-- The issue-record prefilter of `buildIssuesCases`. -/
def issueFilter (r : IssueRecord) : Bool :=
  let status := upperStr (r.status.getD "")
  let mt := upperStr (r.matchType.getD "")
  issueStatuses.contains status || mt == "MISMATCH" || containsStr mt "NO_REPLY"

/-- `Math.max(0, Math.min(100, Math.round(value)))` from `buildIssuesCases`
(rounding is the identity on the integer values modelled here). -/
def clampValue (v : Int) : Nat :=
  (max 0 (min 100 v)).toNat

/-- The deduplication key of `buildIssuesCases`. -/
def issueDedupeKey (key : String) (sc : Option String) (v : Option Int) : String :=
  key ++ "|" ++ sc.getD "" ++ "|" ++ (match v with | some n => toString n | none => "")

/-- The record-iteration loop of `buildIssuesCases` (records already
prefiltered): deduplicate, then rebuild a case by numeric synthesis,
command key, or set code; unmappable records are dropped with a warning. -/
def buildIssuesLoop (byKey : List (String × TruthRow)) (bySetCode : List (String × List TruthRow))
    (specs : List (String × NumericSpec)) :
    List IssueRecord → List String → List CertifyCase
  | [], _ => []
  | r :: rest, seen =>
    let key := (r.commandKey).getD ""
    let setCodeRaw :=
      match r.setCode with
      | some s => some s
      | none => r.command
    let sc := normalizeCode setCodeRaw
    let v := r.value
    let dk := issueDedupeKey key sc v
    if seen.contains dk then buildIssuesLoop byKey bySetCode specs rest seen
    else
      let seen' := dk :: seen
      match sc with
      | some c =>
        match lookupSpec specs c, v with
        | some spec, some value =>
          buildGeneratedNumericCase spec (clampValue value) .generated ::
            buildIssuesLoop byKey bySetCode specs rest seen'
        | _, _ =>
          if !(key == "") && (lookupRowByKey byKey key).isSome then
            match lookupRowByKey byKey key with
            | some row => buildCaseFromTruthRow row .truth :: buildIssuesLoop byKey bySetCode specs rest seen'
            | none => buildIssuesLoop byKey bySetCode specs rest seen'
          else
            match lookupRows bySetCode c with
            | some (row :: _) => buildCaseFromTruthRow row .truth :: buildIssuesLoop byKey bySetCode specs rest seen'
            | _ => buildIssuesLoop byKey bySetCode specs rest seen'
      | none =>
        if !(key == "") && (lookupRowByKey byKey key).isSome then
          match lookupRowByKey byKey key with
          | some row => buildCaseFromTruthRow row .truth :: buildIssuesLoop byKey bySetCode specs rest seen'
          | none => buildIssuesLoop byKey bySetCode specs rest seen'
        else buildIssuesLoop byKey bySetCode specs rest seen'

/-- `buildIssuesCases` from the source: prefilter, rebuild, and move the
power cases behind all other cases. -/
def buildIssuesCases (records : List IssueRecord) (byKey : List (String × TruthRow))
    (bySetCode : List (String × List TruthRow)) (specs : List (String × NumericSpec)) :
    List CertifyCase :=
  let cases := buildIssuesLoop byKey bySetCode specs (records.filter issueFilter) []
  cases.filter (fun c => !c.isPowerCommand) ++ cases.filter (fun c => c.isPowerCommand)

/-- The `--value` validation of `parseOptions`: a value outside 0..100 is a
fatal configuration error thrown before any socket is opened; an accepted
value is rounded (the identity on integers). -/
def parseValueArg (numeric : Int) : Except String Int :=
  if numeric < 0 || 100 < numeric then .error ("Invalid --value: " ++ toString numeric)
  else .ok numeric

/-! ## Execution-loop decision logic -/

/-- Outcome of classifying one executed case: the `status` and `matchType`
written by `setOutcome` in `executeCase`. -/
structure Outcome where
  status : ResultStatus
  matchType : String
deriving DecidableEq

/-- The pure classification logic of `executeCase` (source lines after the
send): EXPECTED_NO_REPLY short-circuits; a missing reply is SKIPPED for
`C211` on the `exview-aio` profile, else NO_REPLY; a received reply first
passes the reply-code gate, then is validated per mode.  The record
enrichment (meaning/parsed/notes) is elided; both reply-received branches
of the EXPECTED_NO_REPLY mode produce the same outcome. -/
def classifyCase (profile : ProfileName) (caseItem : CertifyCase) (rxBytes : Option (List Nat)) : Outcome :=
  let policy := resolvePolicy caseItem profile
  if policy.validationMode = .EXPECTED_NO_REPLY then
    match rxBytes with
    | none => { status := .PASS, matchType := "EXPECTED_NO_REPLY" }
    | some _ => { status := .PASS, matchType := "EXPECTED_NO_REPLY_WITH_REPLY" }
  else
    match rxBytes with
    | none =>
      if profile == .exviewAio && normalizeCode caseItem.setCode == some "C211" then
        { status := .SKIPPED, matchType := "SKIPPED" }
      else if policy.allowNoReplyQuirk then
        { status := .NO_REPLY, matchType := "NO_REPLY_QUIRK" }
      else
        { status := .NO_REPLY, matchType := "NO_REPLY" }
    | some rx =>
      let decoded := decodeReply rx
      if !policy.acceptAnyReplyCode &&
          !isReplyCodeAccepted caseItem.replyCode decoded.replyCode policy.allowedReplyCodes then
        { status := .FAIL, matchType := "REPLY_CODE_MISMATCH" }
      else if policy.validationMode = .STRICT_EXACT then
        if (match caseItem.expectedReplyBytes with
            | some e => equalBytes e rx
            | none => false) then
          { status := .PASS, matchType := "EXACT" }
        else if (match caseItem.expectedReplyBytes with
            | some e => equalIgnoringChecksum e rx
            | none => false) then
          { status := .PASS, matchType := "CHECKSUM_DIFF" }
        else if parseAckStatus decoded.payload == some 0x0001 then
          { status := .PASS, matchType := "ACK_SUCCESS" }
        else if caseItem.expectedReplyBytes.isNone then
          { status := .PASS, matchType := "RX_WITHOUT_TEMPLATE" }
        else
          { status := .FAIL, matchType := "MISMATCH" }
      else
        match policy.parserCode with
        | none => { status := .FAIL, matchType := "PARSER_NOT_CONFIGURED" }
        | some pc =>
          if pc == "C25B" then
            if (parseHdmiPresenceFromFrame rx).ok then
              { status := .PASS, matchType := validationModeName policy.validationMode }
            else
              { status := .FAIL, matchType := "SEMANTIC_PARSE_FAIL" }
          else
            match decoded.payload with
            | none => { status := .FAIL, matchType := "PAYLOAD_NOT_FOUND" }
            | some pl =>
              if (parseSemanticByCode pc pl.data).ok then
                { status := .PASS, matchType := validationModeName policy.validationMode }
              else
                { status := .FAIL, matchType := "SEMANTIC_PARSE_FAIL" }

/-- `statusColorFromStatus` from the source. -/
def statusColorFromStatus (status : ResultStatus) : StatusColor :=
  if status = .PASS then .GREEN
  else if status = .SKIPPED then .GRAY
  else .RED

/-- `buildSkippedRecord` from the source (sans the wall-clock `time`). -/
def buildSkippedRecord (caseItem : CertifyCase) (reason : String) : CertifyRecord :=
  { stage := caseItem.stage
    source := caseItem.source
    category := caseItem.category
    command := caseItem.setCode.getD caseItem.commandKey
    variant := caseItem.description
    commandKey := caseItem.commandKey
    setCode := caseItem.setCode
    replyCode := caseItem.replyCode
    txHex := if 0 < caseItem.txBytes.length then some (bytesToHex caseItem.txBytes) else none
    rxHex := none
    expectedHex := caseItem.expectedReplyBytes.map bytesToHex
    latencyMs := none
    transportStatus := .NO_REPLY
    status := .SKIPPED
    statusColor := statusColorFromStatus .SKIPPED
    validationMode := .STRICT_EXACT
    matchType := "SKIPPED"
    meaning := none
    parsed := none
    note := some reason
    skipReason := some reason
    value := caseItem.generatedValue
    queryTxHex := none
    queryRxHex := none
    queryLatencyMs := none
    queryTransportStatus := none
    queryValue := none
    expectedValue := caseItem.expectedQueryValue
    notes := [reason] }

/-- What the run loop does with one case before any bytes leave the
machine. -/
inductive CaseAction where
  | skip (reason : String)
  | transmit
deriving DecidableEq

/-- The per-case guard sequence of the run loop (source `run`), in source
order: the power stage gate, the serial-only gate, then (suite mode only)
the profile suite-exclusion lookup; every remaining case is transmitted.
A `skip` action produces `buildSkippedRecord` with the shown reason and
the send/receive step is never reached. -/
def runCaseAction (mode : RunMode) (includePower : Bool) (exclusions : List (String × String))
    (caseItem : CertifyCase) : CaseAction :=
  if caseItem.isPowerCommand && (mode == .suite || mode == .issues) && !includePower then
    .skip "Power stage excluded (add --include-power)"
  else if caseItem.serialOnly then
    .skip "Serial-only or non-UDP request frame"
  else if mode == .suite then
    match normalizeCode caseItem.setCode with
    | some sc =>
      match (exclusions.find? (fun p => p.1 == sc)).map (fun p => p.2) with
      | some reason => if reason == "" then .transmit else .skip reason
      | none => .transmit
    | none => .transmit
  else .transmit

/-- The record produced by the run loop before transmission, when the case
is skipped by one of the guards; `none` means the case proceeds to the
send/receive step. -/
def suiteStepRecord (mode : RunMode) (includePower : Bool) (exclusions : List (String × String))
    (caseItem : CertifyCase) : Option CertifyRecord :=
  match runCaseAction mode includePower exclusions caseItem with
  | .skip reason => some (buildSkippedRecord caseItem reason)
  | .transmit => none

/-- The predicate selecting the synthesized cases of one numeric code. -/
def genCaseFor (code : String) (c : CertifyCase) : Bool :=
  c.source == CaseSource.generated && c.setCode == some ("0x" ++ code)

/-- A truth row carrying the given normalized set code. -/
def rowHasCode (code : String) (r : TruthRow) : Bool :=
  normalizeCode r.setCommandCode == some code

/-- A truth row that does not synthesize: its set code is missing or not a
registered numeric code. -/
def nonNumericRow (specs : List (String × NumericSpec)) (r : TruthRow) : Bool :=
  match normalizeCode r.setCommandCode with
  | some sc => (lookupSpec specs sc).isNone
  | none => true

/-- Well-formedness of the derived numeric-spec map: every entry is keyed
by its own normalized set code (as `deriveNumericSpecs` constructs it). -/
def specsWF (specs : List (String × NumericSpec)) : Prop :=
  ∀ p ∈ specs, p.2.setCode = p.1 ∧ normalizeCode (some p.1) = some p.1

/-! ## Concrete inputs used by witnesses and counterexamples -/

/-- A neutral case to specialize in concrete scenarios. -/
def defaultCase : CertifyCase :=
  { id := "", stage := .AUTO, source := .truth, category := "", description := ""
    commandKey := "", setCode := none, replyCode := none, txBytes := []
    expectedReplyBytes := none, generatedValue := none, serialOnly := false
    isSetCommand := false, isModeChangeCommand := false, isPowerCommand := false
    isDisruptiveCommand := false, closedLoopQueryRow := none, expectedQueryValue := none }

/-- A 12-byte reply frame whose tail scan finds exactly one payload marker
at index 7 with a one-byte payload. -/
def c3WitnessBytes : List Nat :=
  [0x55, 0x55, 0x55, 0x55, 0x55, 0x55, 0x55, 0x00, 0x01, 0x00, 0xAB, 0xCC]

/-- The 5-byte sequence `00 01 00 AA 04`: a marker at offset 0 satisfies the
payload-end constraint, but the decoder's length guard rejects the whole
sequence. -/
def c3CexBytes : List Nat := [0x00, 0x01, 0x00, 0xAA, 0x04]

/-- An 8-byte frame carrying the HDMI presence payload `01 00 01 00`. -/
def hdmiFrameExample : List Nat := [0x00, 0x04, 0x00, 0x01, 0x00, 0x01, 0x00, 0xAA]


/-- A case with an expected reply template, for the strict-exact scenario. -/
def c2Case : CertifyCase := { defaultCase with expectedReplyBytes := some [1, 2, 3] }

/-- A reply differing from `c2Case`'s template only in the final byte. -/
def c2Rx : List Nat := [1, 2, 99]

/-- A case expecting reply code `0xC332`, with no registered set code. -/
def c5Case : CertifyCase := { defaultCase with replyCode := some "0xC332" }

/-- A 20-byte reply that never contains the `0xD0` reply-code marker. -/
def c5Rx : List Nat :=
  [0x55, 0x55, 0x55, 0x55, 0x55, 0x55, 0x55, 0x55, 0x55, 0x55,
   0x55, 0x55, 0x55, 0x55, 0x55, 0x55, 0x55, 0x55, 0x55, 0x55]

/-- A `C005` (EXPECTED_NO_REPLY) case that also expects reply code
`0xC006`. -/
def c5CexCase : CertifyCase :=
  { defaultCase with setCode := some "0xC005", replyCode := some "0xC006" }

/-- A case whose set code `0xC999` is absent from the policy table. -/
def c999Case : CertifyCase := { defaultCase with setCode := some "0xC999" }

/-- The 38 fixed bytes of a volume baseline whose checksum-region sum is
exactly the `C203` formula base `0x5B`. -/
def c1WitnessPre : List Nat :=
  List.replicate 8 0x55 ++ 0x5B :: List.replicate 29 0

/-- A volume baseline row consistent with the `C203` linear formula. -/
def c1WitnessRow : TruthRow :=
  { rowNumber := 1, commandKey := "volume-set", category := "Set volume"
    description := "volume", requestBytes := c1WitnessPre ++ [0x00, 0x00]
    replyBytes := none, setCommandCode := some "0xC203"
    replyCommandCode := some "0xC303", instruction := "", remark := ""
    transport := none, excludedReason := none }

/-- The numeric spec derived from `c1WitnessRow`. -/
def c1WitnessSpec : NumericSpec :=
  { setCode := "C203", valueIndex := 38, checksumIndex := 39
    baseRow := c1WitnessRow, queryCode := some "C201", queryRow := none }

/-- A length-40 all-zero volume baseline: a legal numeric spec whose
checksum-region sum is not congruent to the `C203` formula base. -/
def c1CexRow : TruthRow :=
  { rowNumber := 2, commandKey := "volume-drift", category := "Set volume"
    description := "volume", requestBytes := List.replicate 40 0
    replyBytes := none, setCommandCode := some "0xC203"
    replyCommandCode := none, instruction := "", remark := ""
    transport := none, excludedReason := none }

/-- The numeric spec derived from `c1CexRow`. -/
def c1CexSpec : NumericSpec :=
  { setCode := "C203", valueIndex := 38, checksumIndex := 39
    baseRow := c1CexRow, queryCode := none, queryRow := none }

/-- A disruptive-text (sleep) truth row that is not a power command. -/
def c6SleepRow : TruthRow :=
  { rowNumber := 1, commandKey := "sleep-cmd", category := "Set sleep"
    description := "enter sleep"
    requestBytes := [0x55, 0x55, 0x55, 0x55, 0x55, 0x55, 0x55, 0x00, 0x00, 0x99]
    replyBytes := none, setCommandCode := none, replyCommandCode := none
    instruction := "", remark := "", transport := none, excludedReason := none }

/-- A plain, non-disruptive, non-numeric truth row. -/
def c6PlainRow : TruthRow :=
  { rowNumber := 2, commandKey := "plain-cmd", category := "Query status"
    description := "plain"
    requestBytes := [0x55, 0x55, 0x55, 0x55, 0x55, 0x55, 0x55, 0x00, 0x00, 0x99]
    replyBytes := none, setCommandCode := none, replyCommandCode := none
    instruction := "", remark := "", transport := none, excludedReason := none }

/-- A volume truth row for the suite witness. -/
def c6VolumeRow : TruthRow :=
  { rowNumber := 3, commandKey := "volume-row", category := "Set volume"
    description := "volume"
    requestBytes := List.replicate 38 0 ++ [0x00, 0x00]
    replyBytes := none, setCommandCode := some "0xC203"
    replyCommandCode := none, instruction := "", remark := ""
    transport := none, excludedReason := none }

/-- The numeric spec of `c6VolumeRow`. -/
def c6VolumeSpec : NumericSpec :=
  { setCode := "C203", valueIndex := 38, checksumIndex := 39
    baseRow := c6VolumeRow, queryCode := none, queryRow := none }

/-- Suite witness rows: one numeric row and one plain row. -/
def c6WitnessRows : List TruthRow := [c6VolumeRow, c6PlainRow]

/-- Suite witness specs: the volume spec only. -/
def c6WitnessSpecs : List (String × NumericSpec) := [("C203", c6VolumeSpec)]

/-- A non-power, non-serial case with set code `0xC131`. -/
def c7Case : CertifyCase := { defaultCase with setCode := some "0xC131" }

/-- Suite exclusions listing `C131` with reason `disabled`. -/
def c7Exclusions : List (String × String) := [("C131", "disabled")]

/-- A power-command case with set code `0xC003`. -/
def c7PowerCase : CertifyCase :=
  { defaultCase with setCode := some "0xC003", isPowerCommand := true }

/-- Suite exclusions listing the power code `C003` with reason `disabled`. -/
def c7CexExclusions : List (String × String) := [("C003", "disabled")]

/-- An issue record with a finite out-of-range value 150 on the numeric
code `0xC203`. -/
def c10Record : IssueRecord :=
  { commandKey := none, setCode := some "0xC203", command := none
    value := some 150, status := some "FAIL", matchType := none }

/-- The numeric specs available to the issues replay witness. -/
def c10Specs : List (String × NumericSpec) := [("C203", c6VolumeSpec)]

/-! ## Claim theorems -/

/-- Claim C9: byte sequences shorter than 6 bytes always decode to `none`,
even when a `00 <len> 00` marker at offset 0 would satisfy the
payload-end constraint, and every index visited by the backward scan keeps
all three marker reads strictly inside the sequence. -/
theorem c9_short_sequence_guard (bytes : List Nat) :
    (bytes.length < 6 → extractTailPayload bytes = none)
    ∧ (∀ i ∈ tailScanIndices bytes, i + 2 < bytes.length) := by
  constructor
  · intro h
    unfold extractTailPayload
    rw [if_pos h]
  · intro i hi
    unfold tailScanIndices at hi
    rw [List.mem_reverse] at hi
    have h := List.mem_range'_1.mp hi
    omega

/-- Claim C9 witness: the 5-byte sequence `00 01 00 AA 04` decodes to
`none`, and the scan index 1 reads in bounds. -/
theorem c9_witness :
    extractTailPayload c3CexBytes = none ∧ 1 + 2 < c3CexBytes.length :=
  ⟨(c9_short_sequence_guard c3CexBytes).1 (by decide),
   (c9_short_sequence_guard c3CexBytes).2 1 (by decide)⟩

/-- The backward scan visits strictly decreasing indices. -/
theorem tailScanIndices_sorted (bytes : List Nat) :
    (tailScanIndices bytes).Pairwise (fun a b => b < a) := by
  unfold tailScanIndices
  rw [List.pairwise_reverse]
  exact List.pairwise_lt_range' _ _

/-- Claim C3 (amended): for sequences of length at least 6,
`extractTailPayload` is exactly the backward scan the spec describes
(`extractPayloadSpec`); shorter sequences return `none` before any scan.
The selected candidate is a genuine marker, it is the scanned candidate
nearest the tail, `ambiguous` holds exactly when more than one candidate
exists, and an empty candidate set yields `none`. -/
theorem c3_tail_payload_scan (bytes : List Nat) :
    (bytes.length < 6 → extractTailPayload bytes = none)
    ∧ (6 ≤ bytes.length → extractTailPayload bytes = extractPayloadSpec bytes)
    ∧ ((tailScanIndices bytes).filter (isTailCandidate bytes) = [] → extractTailPayload bytes = none)
    ∧ (∀ pd, extractTailPayload bytes = some pd →
        isTailCandidate bytes pd.markerIndex = true
        ∧ pd.markerIndex ∈ tailScanIndices bytes
        ∧ (∀ j ∈ tailScanIndices bytes, isTailCandidate bytes j = true → j ≤ pd.markerIndex)
        ∧ (pd.ambiguous = true ↔ 1 < ((tailScanIndices bytes).filter (isTailCandidate bytes)).length)
        ∧ pd.dataLength = bytes.getD (pd.markerIndex + 1) 0
        ∧ pd.data = (bytes.drop (pd.markerIndex + 3)).take pd.dataLength) := by
  refine ⟨?_, ?_, ?_, ?_⟩
  · intro h
    unfold extractTailPayload
    rw [if_pos h]
  · intro h
    unfold extractTailPayload extractPayloadSpec
    rw [if_neg (by omega)]
  · intro h
    by_cases h6 : bytes.length < 6
    · simp [extractTailPayload, h6]
    · simp [extractTailPayload, h6, h]
  · intro pd hpd
    unfold extractTailPayload at hpd
    by_cases h6 : bytes.length < 6
    · rw [if_pos h6] at hpd
      exact absurd hpd (by simp)
    · rw [if_neg h6] at hpd
      rcases hc : (tailScanIndices bytes).filter (isTailCandidate bytes) with _ | ⟨i, rest⟩
      · rw [hc] at hpd
        simp at hpd
      · rw [hc] at hpd
        simp only [Option.some.injEq] at hpd
        have hmem : i ∈ (tailScanIndices bytes).filter (isTailCandidate bytes) := by
          rw [hc]; exact List.mem_cons_self _ _
        have hm := List.mem_filter.mp hmem
        have hpw : ((tailScanIndices bytes).filter (isTailCandidate bytes)).Pairwise
            (fun a b => b < a) :=
          (tailScanIndices_sorted bytes).sublist (List.filter_sublist _)
        rw [hc] at hpw
        have hrest := (List.pairwise_cons.mp hpw).1
        subst hpd
        refine ⟨hm.2, hm.1, ?_, ?_, rfl, rfl⟩
        · intro j hj hcand
          have hjmem : j ∈ (tailScanIndices bytes).filter (isTailCandidate bytes) :=
            List.mem_filter.mpr ⟨hj, hcand⟩
          rw [hc] at hjmem
          dsimp only
          rcases List.mem_cons.mp hjmem with h | h
          · omega
          · exact le_of_lt (hrest j h)
        · dsimp only
          simp only [decide_eq_true_eq, List.length_cons]
          omega

/-- Claim C3 counterexample: on the 5-byte sequence `00 01 00 AA 04` the
spec's backward scan finds the marker at offset 0, but the implementation
returns `none` because of its length guard — the claim's description does
not hold for every byte sequence. -/
theorem c3_counterexample :
    extractPayloadSpec c3CexBytes =
      some { markerIndex := 0, dataLength := 1, data := [0xAA], ambiguous := false }
    ∧ extractTailPayload c3CexBytes = none := by
  constructor
  · rfl
  · rfl

/-- Claim C3 witness: a 12-byte frame with one marker (index 7, one-byte
payload) on which the implementation and the spec's scan agree and the
selected index is a candidate. -/
theorem c3_witness :
    extractTailPayload c3WitnessBytes = extractPayloadSpec c3WitnessBytes
    ∧ isTailCandidate c3WitnessBytes 7 = true :=
  ⟨(c3_tail_payload_scan c3WitnessBytes).2.1 (by decide),
   ((c3_tail_payload_scan c3WitnessBytes).2.2.2
      { markerIndex := 7, dataLength := 1, data := [0xAB], ambiguous := false } (by decide)).1⟩

/-- Claim C8: a frame carrying the 4-byte HDMI presence payload
`01 00 01 00` parses with `ok = true`, per-port values
`hdmi1=1, hdmi2=0, hdmi3=1, hdmi4=0` and active inputs
`["HDMI1", "HDMI3"]`; the payload-level `C25B` parser agrees on the
per-port values; and every payload containing a byte other than 0 or 1 is
rejected (`ok = false`). -/
theorem c8_hdmi_bitmap :
    (parseHdmiPresenceFromFrame hdmiFrameExample).ok = true
    ∧ (parseHdmiPresenceFromFrame hdmiFrameExample).parsed =
        some [("hdmi1", JVal.num 1), ("hdmi2", JVal.num 0), ("hdmi3", JVal.num 1),
          ("hdmi4", JVal.num 0), ("payloadHex", JVal.str "01 00 01 00"),
          ("activeInputs", JVal.list [JVal.str "HDMI1", JVal.str "HDMI3"])]
    ∧ (parseSemanticByCode "C25B" [1, 0, 1, 0]).ok = true
    ∧ (parseSemanticByCode "C25B" [1, 0, 1, 0]).parsed =
        some [("hdmi1", JVal.num 1), ("hdmi2", JVal.num 0), ("hdmi3", JVal.num 1),
          ("hdmi4", JVal.num 0)]
    ∧ ∀ data : List Nat, data.any (fun b => !(b == 0) && !(b == 1)) = true →
        (parseSemanticByCode "C25B" data).ok = false := by
  refine ⟨rfl, rfl, rfl, rfl, ?_⟩
  intro data hbad
  show (parseSemanticByCode "C25B" data).ok = false
  unfold parseSemanticByCode
  norm_num
  by_cases hlen : data.length = 4
  · have htake : data.take 4 = data := List.take_of_length_le (by omega)
    simp at hbad
    simp [hlen, htake, hbad]
  · simp [hlen]

/-- Claim C8 witness: the payload `02 00 00 00` contains a byte other than
0 or 1 and is rejected. -/
theorem c8_witness : (parseSemanticByCode "C25B" [2, 0, 0, 0]).ok = false :=
  c8_hdmi_bitmap.2.2.2.2 [2, 0, 0, 0] (by decide)

/-- The decoded payload of a reply is the tail-payload extraction. -/
theorem decodeReply_payload (bytes : List Nat) :
    (decodeReply bytes).payload = extractTailPayload bytes := rfl

/-- Claim C2: under STRICT_EXACT, with an accepted reply code and a reply
received, the outcome is PASS exactly when the reply equals the expected
template, or equals it everywhere except the final checksum byte, or the
decoded payload's first two bytes form the little-endian success word
0x0001, or no expected template exists; otherwise the outcome is FAIL. -/
theorem c2_strict_exact_iff (p : ProfileName) (c : CertifyCase) (rx : List Nat)
    (hmode : (resolvePolicy c p).validationMode = .STRICT_EXACT)
    (hacc : (resolvePolicy c p).acceptAnyReplyCode = true ∨
      isReplyCodeAccepted c.replyCode (decodeReply rx).replyCode
        (resolvePolicy c p).allowedReplyCodes = true) :
    ((classifyCase p c (some rx)).status = .PASS ↔
      (c.expectedReplyBytes = some rx
       ∨ (∃ e, c.expectedReplyBytes = some e ∧ equalIgnoringChecksum e rx = true)
       ∨ parseAckStatus (extractTailPayload rx) = some 0x0001
       ∨ c.expectedReplyBytes = none))
    ∧ ((classifyCase p c (some rx)).status = .FAIL ↔
      ¬(c.expectedReplyBytes = some rx
       ∨ (∃ e, c.expectedReplyBytes = some e ∧ equalIgnoringChecksum e rx = true)
       ∨ parseAckStatus (extractTailPayload rx) = some 0x0001
       ∨ c.expectedReplyBytes = none)) := by
  have hgate : (!(resolvePolicy c p).acceptAnyReplyCode &&
      !isReplyCodeAccepted c.replyCode (decodeReply rx).replyCode
        (resolvePolicy c p).allowedReplyCodes) = false := by
    rcases hacc with h | h <;> simp [h]
  have hclass : classifyCase p c (some rx) =
      (if (match c.expectedReplyBytes with
            | some e => equalBytes e rx
            | none => false) = true then
        { status := .PASS, matchType := "EXACT" }
      else if (match c.expectedReplyBytes with
            | some e => equalIgnoringChecksum e rx
            | none => false) = true then
        { status := .PASS, matchType := "CHECKSUM_DIFF" }
      else if parseAckStatus (extractTailPayload rx) == some 0x0001 then
        { status := .PASS, matchType := "ACK_SUCCESS" }
      else if c.expectedReplyBytes.isNone then
        { status := .PASS, matchType := "RX_WITHOUT_TEMPLATE" }
      else { status := .FAIL, matchType := "MISMATCH" }) := by
    simp only [classifyCase]
    rw [hmode]
    rcases hacc with h | h
    · simp [h, decodeReply_payload]
    · simp [h, decodeReply_payload]
  rw [hclass]
  rcases hexp : c.expectedReplyBytes with _ | e
  · by_cases hack : parseAckStatus (extractTailPayload rx) = some 0x0001
    · constructor <;> simp [hexp, hack]
    · constructor <;> simp [hexp, hack]
  · by_cases hEq : e = rx
    · constructor <;> simp [hexp, hEq, equalBytes]
    · by_cases hic : equalIgnoringChecksum e rx
      · constructor <;> simp [hexp, hEq, hic, equalBytes]
      · by_cases hack : parseAckStatus (extractTailPayload rx) = some 0x0001
        · constructor <;> simp [hexp, hEq, hic, hack, equalBytes]
        · constructor <;> simp [hexp, hEq, hic, hack, equalBytes]

/-- Claim C2 witness: a reply differing from the expected template only in
the final checksum byte is classified PASS. -/
theorem c2_witness : (classifyCase .generic c2Case (some c2Rx)).status = .PASS :=
  ((c2_strict_exact_iff .generic c2Case c2Rx (by decide) (Or.inr (by decide))).1).mpr
    (Or.inr (Or.inl ⟨[1, 2, 3], by decide, by decide⟩))

/-- Claim C5 (amended): when the reply contains no `0xD0` marker anywhere
in the scan window, `decodeReplyCode` returns not-found as a normal
outcome, and a case whose resolved policy demands an exact reply-code
match (non-empty accepted set, no accept-any flag) and is not in
EXPECTED_NO_REPLY mode is classified FAIL with matchType
REPLY_CODE_MISMATCH; an EXPECTED_NO_REPLY case instead passes. -/
theorem c5_reply_code_mismatch (p : ProfileName) (c : CertifyCase) (rx : List Nat)
    (hscan : ∀ i, 8 ≤ i → i ≤ min (rx.length - 3) 40 → ¬ rx.getD i 0 = 0xd0)
    (hmode : (resolvePolicy c p).validationMode ≠ .EXPECTED_NO_REPLY)
    (hany : (resolvePolicy c p).acceptAnyReplyCode = false)
    (hne : acceptedReplyCodes c.replyCode (resolvePolicy c p).allowedReplyCodes ≠ []) :
    decodeReplyCode rx = none
    ∧ classifyCase p c (some rx) = { status := .FAIL, matchType := "REPLY_CODE_MISMATCH" } := by
  have hfind : (List.range' 8 (min (rx.length - 3) 40 + 1 - 8)).find?
      (fun i => rx.getD i 0 == 0xd0) = none := by
    apply List.find?_eq_none.mpr
    intro i hi
    rw [List.mem_range'_1] at hi
    have hd := hscan i (by omega) (by omega)
    simp only [beq_iff_eq]
    exact hd
  have hdec : decodeReplyCode rx = none := by
    show (match (List.range' 8 (min (rx.length - 3) 40 + 1 - 8)).find?
        (fun i => rx.getD i 0 == 0xd0) with
      | some i => some (upperStr (byteHex (rx.getD (i + 2) 0) ++ byteHex (rx.getD (i + 1) 0)), i)
      | none => (none : Option (String × Nat))) = none
    rw [hfind]
  have hrc : (decodeReply rx).replyCode = none := by
    simp [decodeReply, hdec]
  have haccept : isReplyCodeAccepted c.replyCode (decodeReply rx).replyCode
      (resolvePolicy c p).allowedReplyCodes = false := by
    unfold isReplyCodeAccepted
    rw [hrc]
    rw [if_neg (by simp [List.isEmpty_iff, hne])]
  refine ⟨hdec, ?_⟩
  simp [classifyCase, hmode, hany, haccept]

/-- Claim C5 witness: a marker-free reply on a case expecting code
`0xC332` is classified FAIL / REPLY_CODE_MISMATCH. -/
theorem c5_witness :
    decodeReplyCode c5Rx = none
    ∧ classifyCase .generic c5Case (some c5Rx) =
        { status := .FAIL, matchType := "REPLY_CODE_MISMATCH" } :=
  c5_reply_code_mismatch .generic c5Case c5Rx
    (by
      intro i h1 h2
      have h17 : i ≤ 17 := by simpa [c5Rx] using h2
      interval_cases i <;> decide)
    (by decide) (by decide) (by decide)

/-- Claim C5 counterexample: a `C005` case resolves to EXPECTED_NO_REPLY;
its accepted reply-code set is non-empty and accept-any is off, yet a
marker-free reply is classified PASS (EXPECTED_NO_REPLY_WITH_REPLY), not
FAIL — the claim does not hold for every policy requiring an exact
reply-code match. -/
theorem c5_counterexample :
    decodeReplyCode c5Rx = none
    ∧ (resolvePolicy c5CexCase .exviewAio).acceptAnyReplyCode = false
    ∧ acceptedReplyCodes c5CexCase.replyCode
        (resolvePolicy c5CexCase .exviewAio).allowedReplyCodes = ["C006"]
    ∧ classifyCase .exviewAio c5CexCase (some c5Rx) =
        { status := .PASS, matchType := "EXPECTED_NO_REPLY_WITH_REPLY" } := by
  refine ⟨by decide, by decide, by decide, by decide⟩

/-- Claim C4 (amended): a case whose normalized set code is absent from
the policy table resolves to STRICT_EXACT with the parser selector
defaulted to the normalized set code itself (`none` only when the case
has no set code), no note, no accept-any flag, no no-reply tolerance and
an empty allowed-code list — unless the category/description text
contains `query scene mode`, which upgrades the fallback to PARSED_RANGE
with parser `C243`; a registered code returns the table entry's mode,
parser selector, note, accept-any flag, no-reply tolerance and allowed
codes. -/
theorem c4_policy_resolution (p : ProfileName) (c : CertifyCase) :
    ((normalizeCode c.setCode).bind commandPolicyByCode = none →
      sceneModeHeuristic c = false →
      resolvePolicy c p =
        { validationMode := .STRICT_EXACT, parserCode := normalizeCode c.setCode,
          note := none, acceptAnyReplyCode := false, allowNoReplyQuirk := false,
          allowedReplyCodes := [] })
    ∧ ((normalizeCode c.setCode).bind commandPolicyByCode = none →
      sceneModeHeuristic c = true →
      resolvePolicy c p =
        { validationMode := .PARSED_RANGE, parserCode := some "C243",
          note := none, acceptAnyReplyCode := false, allowNoReplyQuirk := false,
          allowedReplyCodes := [] })
    ∧ (∀ b, (normalizeCode c.setCode).bind commandPolicyByCode = some b →
      resolvePolicy c p =
        { validationMode := b.validationMode,
          parserCode := match b.parserCode with
            | some q => some q
            | none => normalizeCode c.setCode,
          note := b.note,
          acceptAnyReplyCode := b.acceptAnyReplyCode.getD false,
          allowNoReplyQuirk := b.allowNoReplyQuirk.getD false,
          allowedReplyCodes := b.allowedReplyCodes.getD [] }) := by
  refine ⟨?_, ?_, ?_⟩
  · intro hb hs
    simp [resolvePolicy, hb, hs]
  · intro hb hs
    simp [resolvePolicy, hb, hs]
  · intro b hb
    simp [resolvePolicy, hb]

/-- Claim C4 counterexample: for the unregistered set code `0xC999` the
resolver falls back to STRICT_EXACT, but its parser selector is the
normalized set code `C999`, not "no parser" as the claim states. -/
theorem c4_counterexample :
    normalizeCode c999Case.setCode = some "C999"
    ∧ commandPolicyByCode "C999" = none
    ∧ (resolvePolicy c999Case .generic).validationMode = .STRICT_EXACT
    ∧ (resolvePolicy c999Case .generic).parserCode = some "C999"
    ∧ ¬((resolvePolicy c999Case .generic).parserCode = none) := by
  refine ⟨by decide, by decide, by decide, by decide, by decide⟩

/-- Claim C4 witness: instantiating the amended resolution characterization
at the unregistered code `0xC999`. -/
theorem c4_witness :
    resolvePolicy c999Case .generic =
      { validationMode := .STRICT_EXACT, parserCode := some "C999", note := none,
        acceptAnyReplyCode := false, allowNoReplyQuirk := false, allowedReplyCodes := [] } :=
  (c4_policy_resolution .generic c999Case).1 (by decide) (by decide)

/-- Setting an index past the left part of an append acts on the right
part. -/
theorem listSet_append_right (l1 l2 : List Nat) (i a : Nat) (h : l1.length ≤ i) :
    (l1 ++ l2).set i a = l1 ++ l2.set (i - l1.length) a := by
  induction l1 generalizing i with
  | nil => simp
  | cons x xs ih =>
    cases i with
    | zero => simp at h
    | succ j =>
      simp only [List.cons_append, List.set_cons_succ, List.length_cons]
      rw [ih j (by simpa using h)]
      have : j - xs.length = j + 1 - (xs.length + 1) := by omega
      rw [this]

/-- The running mod-256 fold computes the sum mod 256. -/
theorem foldl_add_mod (l : List Nat) (a : Nat) (h : a < 256) :
    l.foldl (fun s b => (s + b) % 256) a = (a + l.sum) % 256 := by
  induction l generalizing a with
  | nil => simp [Nat.mod_eq_of_lt h]
  | cons x xs ih =>
    simp only [List.foldl_cons, List.sum_cons]
    rw [ih _ (Nat.mod_lt _ (by omega))]
    conv_rhs => rw [← Nat.add_assoc]
    rw [Nat.mod_add_mod]

/-- The generic checksum of a 40-byte request built from 38 fixed bytes
plus a value byte and a checksum byte. -/
theorem computePdfChecksum_concat (pre : List Nat) (x y : Nat) (h : pre.length = 38) :
    computePdfChecksum (pre ++ [x, y]) = ((pre.drop 8).sum + x) % 256 := by
  have hlen : (pre ++ [x, y]).length = 40 := by simp [h]
  unfold computePdfChecksum
  rw [if_neg (by omega)]
  rw [hlen]
  have hdrop : (pre ++ [x, y]).drop 8 = pre.drop 8 ++ [x, y] := by
    rw [List.drop_append_eq_append_drop]
    rw [show 8 - pre.length = 0 by omega]
    rfl
  rw [hdrop]
  have hdlen : (pre.drop 8).length = 30 := by simp [h]
  have htake : (pre.drop 8 ++ [x, y]).take (40 - 9) = pre.drop 8 ++ [x] := by
    rw [List.take_append_eq_append_take]
    rw [List.take_of_length_le (by omega), hdlen]
    rfl
  rw [htake]
  rw [foldl_add_mod _ 0 (by omega)]
  simp

/-- The last element of a list extended by two elements. -/
theorem getLast?_append_pair (l : List Nat) (x y : Nat) :
    (l ++ [x, y]).getLast? = some y := by
  induction l with
  | nil => rfl
  | cons a as ih =>
    rw [List.cons_append, List.getLast?_cons]
    simp [ih]

/-- Claim C1 (amended): over any legal numeric spec (value offset 38,
checksum offset 39 = last byte of a 40-byte baseline) and value 0..100,
a code without a registered formula synthesizes a request whose last byte
equals the generic checksum of the synthesized request; a code with a
registered formula synthesizes last byte `(formulaBase + v) & 0xFF`, which
also equals the generic checksum whenever the baseline's fixed
checksum-region sum is congruent to the formula base mod 256; for `C203`
and v = 50 the synthesized checksum byte is 0x8D. -/
theorem c1_synthesized_checksum (spec : NumericSpec) (src : CaseSource) (pre : List Nat)
    (a cks v : Nat)
    (_hmem : spec.setCode ∈ numericSetCodes)
    (hvi : spec.valueIndex = 38) (hci : spec.checksumIndex = 39)
    (hreq : spec.baseRow.requestBytes = pre ++ [a, cks]) (hpre : pre.length = 38)
    (hv : v ≤ 100) :
    (formulaChecksumBase spec.setCode = none →
      (buildGeneratedNumericCase spec v src).txBytes.getLast? =
        some (computePdfChecksum (buildGeneratedNumericCase spec v src).txBytes))
    ∧ (∀ fb, formulaChecksumBase spec.setCode = some fb →
      (buildGeneratedNumericCase spec v src).txBytes.getLast? = some ((fb + v) % 256)
      ∧ ((pre.drop 8).sum % 256 = fb % 256 →
        (buildGeneratedNumericCase spec v src).txBytes.getLast? =
          some (computePdfChecksum (buildGeneratedNumericCase spec v src).txBytes)))
    ∧ (spec.setCode = "C203" → v = 50 →
      (buildGeneratedNumericCase spec v src).txBytes.getLast? = some 0x8D) := by
  have hv256 : v % 256 = v := Nat.mod_eq_of_lt (by omega)
  have htx1 : spec.baseRow.requestBytes.set spec.valueIndex (v % 256) = pre ++ [v, cks] := by
    rw [hreq, hvi, listSet_append_right pre [a, cks] 38 (v % 256) (by omega)]
    rw [show (38 : Nat) - pre.length = 0 by omega, hv256]
    rfl
  have htxF : ∀ fb, formulaChecksumBase spec.setCode = some fb →
      (buildGeneratedNumericCase spec v src).txBytes = pre ++ [v, (fb + v) % 256] := by
    intro fb hfb
    simp only [buildGeneratedNumericCase, hfb]
    rw [htx1, hci, listSet_append_right pre [v, cks] 39 _ (by omega)]
    rw [show (39 : Nat) - pre.length = 1 by omega]
    rfl
  have htxN : formulaChecksumBase spec.setCode = none →
      (buildGeneratedNumericCase spec v src).txBytes =
        pre ++ [v, ((pre.drop 8).sum + v) % 256] := by
    intro hfb
    simp only [buildGeneratedNumericCase, hfb]
    rw [htx1, hci, listSet_append_right pre [v, cks] 39 _ (by omega)]
    rw [show (39 : Nat) - pre.length = 1 by omega]
    rw [computePdfChecksum_concat _ _ _ hpre]
    rfl
  refine ⟨?_, ?_, ?_⟩
  · intro hfb
    rw [htxN hfb, getLast?_append_pair, computePdfChecksum_concat _ _ _ hpre]
  · intro fb hfb
    constructor
    · rw [htxF fb hfb, getLast?_append_pair]
    · intro hsum
      rw [htxF fb hfb, getLast?_append_pair, computePdfChecksum_concat _ _ _ hpre]
      congr 1
      omega
  · intro h203 hv50
    have hfb : formulaChecksumBase spec.setCode = some 0x5b := by
      rw [h203]
      rfl
    rw [htxF 0x5b hfb, getLast?_append_pair, hv50]

/-- Claim C1 counterexample: a legal all-zero `C203` baseline (length 40,
checksum index 39 = last byte) synthesizes, at value 50, last byte
`0x5B + 50 = 0x8D` by the registered formula, while the generic checksum
of the synthesized request is 50 — the synthesized last byte does not
equal `computeChecksum` of the request for every baseline of a formula
code. -/
theorem c1_counterexample :
    (buildGeneratedNumericCase c1CexSpec 50 .generated).txBytes.getLast? = some 0x8D
    ∧ computePdfChecksum (buildGeneratedNumericCase c1CexSpec 50 .generated).txBytes = 50
    ∧ ¬((buildGeneratedNumericCase c1CexSpec 50 .generated).txBytes.getLast? =
        some (computePdfChecksum (buildGeneratedNumericCase c1CexSpec 50 .generated).txBytes)) := by
  refine ⟨by decide, by decide, by decide⟩

/-- Claim C1 witness: on a baseline whose fixed checksum-region sum equals
the `C203` formula base, value 50 synthesizes checksum byte 0x8D, which
also equals the generic checksum of the synthesized request. -/
theorem c1_witness :
    (buildGeneratedNumericCase c1WitnessSpec 50 .generated).txBytes.getLast? = some 0x8D
    ∧ (buildGeneratedNumericCase c1WitnessSpec 50 .generated).txBytes.getLast? =
        some (computePdfChecksum (buildGeneratedNumericCase c1WitnessSpec 50 .generated).txBytes) :=
  ⟨(c1_synthesized_checksum c1WitnessSpec .generated c1WitnessPre 0 0 50 (by decide) rfl rfl
      rfl (by decide) (by decide)).2.2 rfl rfl,
   ((c1_synthesized_checksum c1WitnessSpec .generated c1WitnessPre 0 0 50 (by decide) rfl rfl
      rfl (by decide) (by decide)).2.1 0x5b rfl).2 (by decide)⟩

/-- Claim C7 (amended): in suite mode, a case whose normalized set code is
listed in the profile's suite exclusions with a non-empty reason is never
transmitted; and provided the case is not already caught by the earlier
power-stage gate (a power case without `--include-power`) or the
serial-only gate — which take precedence and write their own skip
reasons — the produced record is SKIPPED with `skipReason` equal to the
exclusion reason. -/
theorem c7_suite_exclusion (mode : RunMode) (includePower : Bool)
    (exclusions : List (String × String)) (c : CertifyCase) (sc reason : String)
    (hmode : mode = .suite)
    (hsc : normalizeCode c.setCode = some sc)
    (hlook : (exclusions.find? (fun p => p.1 == sc)).map (fun p => p.2) = some reason)
    (hne : reason ≠ "") :
    (runCaseAction mode includePower exclusions c ≠ .transmit)
    ∧ ((c.isPowerCommand = true → includePower = true) → c.serialOnly = false →
        runCaseAction mode includePower exclusions c = .skip reason
        ∧ suiteStepRecord mode includePower exclusions c =
            some (buildSkippedRecord c reason)
        ∧ (buildSkippedRecord c reason).status = .SKIPPED
        ∧ (buildSkippedRecord c reason).skipReason = some reason) := by
  subst hmode
  have hexcl : runCaseAction .suite includePower exclusions c =
      (if c.isPowerCommand && !includePower then
        CaseAction.skip "Power stage excluded (add --include-power)"
      else if c.serialOnly then CaseAction.skip "Serial-only or non-UDP request frame"
      else CaseAction.skip reason) := by
    unfold runCaseAction
    rw [hsc]
    simp only [beq_self_eq_true, Bool.true_or, Bool.true_and, Bool.and_true, if_true]
    rw [hlook]
    simp [hne]
  constructor
  · intro ht
    rw [hexcl] at ht
    rcases hp : (c.isPowerCommand && !includePower) with _ | _ <;>
      rcases hs : c.serialOnly with _ | _ <;> simp [hp, hs] at ht
  · intro hpow hser
    have hp : (c.isPowerCommand && !includePower) = false := by
      rcases hcp : c.isPowerCommand with _ | _
      · simp
      · simp [hpow hcp]
    rw [hexcl, if_neg (by simp [hp]), if_neg (by simp [hser])]
    refine ⟨rfl, ?_, rfl, rfl⟩
    unfold suiteStepRecord
    rw [hexcl, if_neg (by simp [hp]), if_neg (by simp [hser])]

/-- Claim C7 witness: the scenario of the claim — code `0xC131` excluded
with reason `disabled` on a non-power, non-serial case. -/
theorem c7_witness :
    runCaseAction .suite false c7Exclusions c7Case = .skip "disabled"
    ∧ (buildSkippedRecord c7Case "disabled").status = .SKIPPED
    ∧ (buildSkippedRecord c7Case "disabled").skipReason = some "disabled" :=
  ⟨((c7_suite_exclusion .suite false c7Exclusions c7Case "C131" "disabled" rfl (by decide)
      (by decide) (by decide)).2 (by intro h; cases h) rfl).1,
   ((c7_suite_exclusion .suite false c7Exclusions c7Case "C131" "disabled" rfl (by decide)
      (by decide) (by decide)).2 (by intro h; cases h) rfl).2.2.1,
   ((c7_suite_exclusion .suite false c7Exclusions c7Case "C131" "disabled" rfl (by decide)
      (by decide) (by decide)).2 (by intro h; cases h) rfl).2.2.2⟩

/-- Claim C7 counterexample: a power case whose code `C003` is excluded
with reason `disabled` is skipped by the earlier power-stage gate, so the
record's reason is the power-gate message, not the exclusion reason the
claim promises. -/
theorem c7_counterexample :
    normalizeCode c7PowerCase.setCode = some "C003"
    ∧ ((c7CexExclusions.find? (fun p => p.1 == "C003")).map (fun p => p.2)) = some "disabled"
    ∧ runCaseAction .suite false c7CexExclusions c7PowerCase =
        .skip "Power stage excluded (add --include-power)"
    ∧ ¬(runCaseAction .suite false c7CexExclusions c7PowerCase = .skip "disabled")
    ∧ (buildSkippedRecord c7PowerCase "Power stage excluded (add --include-power)").skipReason ≠
        some "disabled" := by
  refine ⟨by decide, by decide, by decide, by decide, by decide⟩

/-- Claim C10: in issues replay, a filtered numeric issue record with a
finite value outside 0..100 is not rejected: the value is clamped into
[0, 100] and exactly one case is synthesized from the clamped value; in
contrast, the single-mode `--value` validation reports any out-of-range
value as a fatal configuration error (thrown by the option parser before
any socket exists). -/
theorem c10_issues_clamp (r : IssueRecord) (byKey : List (String × TruthRow))
    (bySetCode : List (String × List TruthRow)) (specs : List (String × NumericSpec))
    (code : String) (spec : NumericSpec) (v : Int)
    (hf : issueFilter r = true)
    (hsc : normalizeCode (match r.setCode with | some s => some s | none => r.command) = some code)
    (hspec : lookupSpec specs code = some spec)
    (hv : r.value = some v) :
    buildIssuesCases [r] byKey bySetCode specs =
      [buildGeneratedNumericCase spec (clampValue v) .generated]
    ∧ clampValue v ≤ 100
    ∧ (buildGeneratedNumericCase spec (clampValue v) .generated).generatedValue =
        some (clampValue v)
    ∧ ∀ n : Int, (n < 0 ∨ 100 < n) →
        parseValueArg n = .error ("Invalid --value: " ++ toString n) := by
  refine ⟨?_, ?_, rfl, ?_⟩
  · simp only [buildIssuesCases]
    rw [show ([r].filter issueFilter) = [r] by simp [hf]]
    simp only [buildIssuesLoop]
    rw [hsc]
    simp only [hspec, hv]
    simp [buildGeneratedNumericCase]
  · unfold clampValue
    omega
  · intro n hn
    unfold parseValueArg
    rw [if_pos (by simpa using hn)]

/-- Claim C10 witness: an issue record with value 150 on code `0xC203`
synthesizes one case at the clamped value 100, while `--value 150` is a
fatal configuration error in single mode. -/
theorem c10_witness :
    buildIssuesCases [c10Record] [] [] c10Specs =
      [buildGeneratedNumericCase c6VolumeSpec 100 .generated]
    ∧ parseValueArg 150 = .error ("Invalid --value: " ++ toString (150 : Int)) :=
  ⟨(c10_issues_clamp c10Record [] [] c10Specs "C203" c6VolumeSpec 150 (by decide) (by decide)
      (by decide) rfl).1,
   (c10_issues_clamp c10Record [] [] c10Specs "C203" c6VolumeSpec 150 (by decide) (by decide)
      (by decide) rfl).2.2.2 150 (by omega)⟩

/-- Prepending `0x` to a code string is injective. -/
theorem string_prepend_0x_inj {a b : String} (h : ("0x" ++ a) = ("0x" ++ b)) : a = b := by
  cases a with
  | mk la =>
    cases b with
    | mk lb =>
      have h2 := congrArg String.data h
      simp [String.data_append] at h2
      exact congrArg String.mk h2

/-- A well-formed spec entry found by lookup is keyed by its own code. -/
theorem lookupSpec_wf (specs : List (String × NumericSpec)) (hwf : specsWF specs)
    (c : String) (s : NumericSpec) (h : lookupSpec specs c = some s) :
    s.setCode = c ∧ normalizeCode (some c) = some c := by
  unfold lookupSpec at h
  rcases hf : specs.find? (fun p => p.1 == c) with _ | p
  · rw [hf] at h
    simp at h
  · rw [hf] at h
    simp only [Option.map_some', Option.some.injEq] at h
    have hp : p.1 = c := by
      have := List.find?_some hf
      simpa using this
    have hmem := List.mem_of_find?_eq_some hf
    have hw := hwf p hmem
    subst h
    rw [← hp]
    exact hw

/-- A generated case of one spec matches `genCaseFor code` exactly when
the spec's own code is `code`. -/
theorem genCaseFor_build (code code' : String) (spec : NumericSpec) (v : Nat)
    (hsc : spec.setCode = code') (hnorm : normalizeCode (some code') = some code') :
    genCaseFor code (buildGeneratedNumericCase spec v .generated) = (code' == code) := by
  have hset : (buildGeneratedNumericCase spec v .generated).setCode = some ("0x" ++ code') := by
    simp only [buildGeneratedNumericCase]
    rw [hsc]
    simp [toCode, hnorm]
  have hsrc : (buildGeneratedNumericCase spec v .generated).source = .generated := rfl
  unfold genCaseFor
  rw [hset, hsrc]
  by_cases hc : code' = code
  · subst hc
    simp
  · have hx : ¬("0x" ++ code' = "0x" ++ code) := fun hh => hc (string_prepend_0x_inj hh)
    simp [hc, hx]

/-- Every generated-source case produced by the suite loop has
`isPowerCommand = false` (the synthesizer writes the flag as `false`). -/
theorem suiteLoop_generated_not_power (specs : List (String × NumericSpec)) :
    ∀ (rows : List TruthRow) (genSet : List String) (c : CertifyCase),
      c ∈ buildSuiteLoop specs rows genSet → c.source = .generated →
      c.isPowerCommand = false := by
  intro rows
  induction rows with
  | nil =>
    intro genSet c hc
    simp [buildSuiteLoop] at hc
  | cons row rest ih =>
    intro genSet c hc hgen
    rcases hnc : normalizeCode row.setCommandCode with _ | sc
    · simp only [buildSuiteLoop, hnc] at hc
      rcases List.mem_cons.mp hc with h | h
      · subst h
        cases hgen
      · exact ih genSet c h hgen
    · simp only [buildSuiteLoop, hnc] at hc
      rcases hl : lookupSpec specs sc with _ | spec
      · simp only [hl] at hc
        rcases List.mem_cons.mp hc with h | h
        · subst h
          cases hgen
        · exact ih genSet c h hgen
      · simp only [hl] at hc
        by_cases hg : genSet.contains sc
        · rw [if_pos hg] at hc
          exact ih genSet c hc hgen
        · rw [if_neg hg] at hc
          rcases List.mem_append.mp hc with h | h
          · rcases List.mem_map.mp h with ⟨v, _, hv⟩
            subst hv
            rfl
          · exact ih (sc :: genSet) c h hgen

/-- The truth-sourced cases of the suite loop are exactly the non-numeric
rows, in row order, one case per row. -/
theorem suiteLoop_filter_truth (specs : List (String × NumericSpec)) :
    ∀ (rows : List TruthRow) (genSet : List String),
      (buildSuiteLoop specs rows genSet).filter (fun c => c.source == CaseSource.truth) =
        (rows.filter (nonNumericRow specs)).map (fun r => buildCaseFromTruthRow r .truth) := by
  intro rows
  induction rows with
  | nil =>
    intro genSet
    simp [buildSuiteLoop]
  | cons row rest ih =>
    intro genSet
    have hsrc : (buildCaseFromTruthRow row .truth).source = CaseSource.truth := rfl
    rcases hnc : normalizeCode row.setCommandCode with _ | sc
    · have hnn : nonNumericRow specs row = true := by simp [nonNumericRow, hnc]
      simp only [buildSuiteLoop, hnc, List.filter_cons, hnn, hsrc]
      simp [ih genSet]
    · rcases hl : lookupSpec specs sc with _ | spec
      · have hnn : nonNumericRow specs row = true := by simp [nonNumericRow, hnc, hl]
        simp only [buildSuiteLoop, hnc, hl, List.filter_cons, hnn, hsrc]
        simp [ih genSet]
      · have hnn : nonNumericRow specs row = false := by simp [nonNumericRow, hnc, hl]
        by_cases hg : genSet.contains sc
        · simp only [buildSuiteLoop, hnc, hl, if_pos hg, List.filter_cons, hnn]
          simp [ih genSet]
        · have hblock : ((List.range 101).map
              (fun v => buildGeneratedNumericCase spec v .generated)).filter
                (fun c => c.source == CaseSource.truth) = [] := by
            apply List.filter_eq_nil_iff.mpr
            intro c hc
            rcases List.mem_map.mp hc with ⟨v, _, hv⟩
            subst hv
            have hgensrc : (buildGeneratedNumericCase spec v CaseSource.generated).source =
                CaseSource.generated := rfl
            simp [hgensrc]
          simp only [buildSuiteLoop, hnc, hl, if_neg hg, List.filter_append, List.filter_cons, hnn]
          simp [hblock, ih (sc :: genSet)]

/-- The generated cases of one registered numeric code in the suite loop:
none while the code is already marked generated, the full 101-value block
when some remaining row carries the code, nothing otherwise. -/
theorem suiteLoop_filter_gen (specs : List (String × NumericSpec)) (code : String)
    (spec : NumericSpec) (hwf : specsWF specs) (hlook : lookupSpec specs code = some spec) :
    ∀ (rows : List TruthRow) (genSet : List String),
      (buildSuiteLoop specs rows genSet).filter (genCaseFor code) =
        (if genSet.contains code then []
         else if rows.any (rowHasCode code) then
           (List.range 101).map (fun v => buildGeneratedNumericCase spec v .generated)
         else []) := by
  have hcodewf := lookupSpec_wf specs hwf code spec hlook
  intro rows
  induction rows with
  | nil =>
    intro genSet
    simp [buildSuiteLoop]
  | cons row rest ih =>
    intro genSet
    rcases hnc : normalizeCode row.setCommandCode with _ | sc
    · have hrhc : rowHasCode code row = false := by simp [rowHasCode, hnc]
      have hhead : genCaseFor code (buildCaseFromTruthRow row .truth) = false := by
        have hs : (buildCaseFromTruthRow row .truth).source = CaseSource.truth := rfl
        simp [genCaseFor, hs]
      simp only [buildSuiteLoop, hnc, List.filter_cons, hhead, List.any_cons, hrhc]
      simp [ih genSet]
    · rcases hl : lookupSpec specs sc with _ | spec'
      · have hsc_ne : sc ≠ code := by
          intro h
          rw [h, hlook] at hl
          cases hl
        have hrhc : rowHasCode code row = false := by
          simp [rowHasCode, hnc, hsc_ne]
        have hhead : genCaseFor code (buildCaseFromTruthRow row .truth) = false := by
          have hs : (buildCaseFromTruthRow row .truth).source = CaseSource.truth := rfl
          simp [genCaseFor, hs]
        simp only [buildSuiteLoop, hnc, hl, List.filter_cons, hhead, List.any_cons, hrhc]
        simp [ih genSet]
      · by_cases hsc : sc = code
        · subst hsc
          have hspec' : spec = spec' := by
            rw [hlook] at hl
            exact Option.some.inj hl
          subst hspec'
          have hrhc : rowHasCode sc row = true := by simp [rowHasCode, hnc]
          have hany : (row :: rest).any (rowHasCode sc) = true := by
            simp [List.any_cons, hrhc]
          by_cases hg : genSet.contains sc
          · simp only [buildSuiteLoop, hnc, hl, if_pos hg]
            rw [ih genSet, if_pos hg]
          · have hblock : ((List.range 101).map
                (fun v => buildGeneratedNumericCase spec v .generated)).filter
                  (genCaseFor sc) =
                (List.range 101).map (fun v => buildGeneratedNumericCase spec v .generated) := by
              apply List.filter_eq_self.mpr
              intro c hc
              rcases List.mem_map.mp hc with ⟨v, _, hv⟩
              subst hv
              rw [genCaseFor_build sc sc spec v hcodewf.1 hcodewf.2]
              simp
            have hcont : (sc :: genSet).contains sc = true := by simp
            simp only [buildSuiteLoop, hnc, hl, if_neg hg, List.filter_append, hblock]
            rw [ih (sc :: genSet), if_pos hcont, if_pos hany]
            simp
        · have hwf' := lookupSpec_wf specs hwf sc spec' hl
          have hrhc : rowHasCode code row = false := by
            simp [rowHasCode, hnc, hsc]
          have hany : (row :: rest).any (rowHasCode code) = rest.any (rowHasCode code) := by
            simp [List.any_cons, hrhc]
          by_cases hg : genSet.contains sc
          · simp only [buildSuiteLoop, hnc, hl, if_pos hg]
            rw [ih genSet, hany]
          · have hblock : ((List.range 101).map
                (fun v => buildGeneratedNumericCase spec' v .generated)).filter
                  (genCaseFor code) = [] := by
              apply List.filter_eq_nil_iff.mpr
              intro c hc
              rcases List.mem_map.mp hc with ⟨v, _, hv⟩
              subst hv
              rw [Bool.not_eq_true, genCaseFor_build code sc spec' v hwf'.1 hwf'.2]
              simp [hsc]
            have hcont : (sc :: genSet).contains code = genSet.contains code := by
              simp only [List.contains_cons, Bool.or_eq_true, beq_iff_eq]
              have : ¬(code = sc) := fun h => hsc h.symm
              simp [this]
            simp only [buildSuiteLoop, hnc, hl, if_neg hg, List.filter_append, hblock]
            rw [ih (sc :: genSet), hcont, hany]
            simp

/-- Claim C6 (amended): in suite mode, for each registered numeric code
present in the truth rows, the built case list contains exactly the
101-value sweep (values 0..100 in order, synthesized once from that
code's spec); every non-numeric truth row yields exactly one case (the
truth-sourced cases are a permutation of one case per non-numeric row);
and all power cases (`isPowerCommand`, i.e. set code C003/C007/C009) are
moved behind all other cases — disruptive-only cases are not reordered. -/
theorem c6_suite_composition (rows : List TruthRow) (specs : List (String × NumericSpec))
    (hwf : specsWF specs) :
    (∀ code spec, lookupSpec specs code = some spec →
      rows.any (rowHasCode code) = true →
      (buildSuiteCases rows specs).filter (genCaseFor code) =
        (List.range 101).map (fun v => buildGeneratedNumericCase spec v .generated))
    ∧ List.Perm
        ((buildSuiteCases rows specs).filter (fun c => c.source == CaseSource.truth))
        ((rows.filter (nonNumericRow specs)).map (fun r => buildCaseFromTruthRow r .truth))
    ∧ buildSuiteCases rows specs =
        (buildSuiteCases rows specs).filter (fun c => !c.isPowerCommand) ++
          (buildSuiteCases rows specs).filter (fun c => c.isPowerCommand) := by
  have hres : buildSuiteCases rows specs =
      (buildSuiteLoop specs rows []).filter (fun c => !c.isPowerCommand) ++
        (buildSuiteLoop specs rows []).filter (fun c => c.isPowerCommand) := rfl
  have hAself : ((buildSuiteLoop specs rows []).filter (fun c => !c.isPowerCommand)).filter
      (fun c => !c.isPowerCommand) =
      (buildSuiteLoop specs rows []).filter (fun c => !c.isPowerCommand) := by
    apply List.filter_eq_self.mpr
    intro c hc
    exact (List.mem_filter.mp hc).2
  have hBself : ((buildSuiteLoop specs rows []).filter (fun c => c.isPowerCommand)).filter
      (fun c => c.isPowerCommand) =
      (buildSuiteLoop specs rows []).filter (fun c => c.isPowerCommand) := by
    apply List.filter_eq_self.mpr
    intro c hc
    exact (List.mem_filter.mp hc).2
  have hABnil : ((buildSuiteLoop specs rows []).filter (fun c => !c.isPowerCommand)).filter
      (fun c => c.isPowerCommand) = [] := by
    apply List.filter_eq_nil_iff.mpr
    intro c hc
    have := (List.mem_filter.mp hc).2
    simp at this
    simp [this]
  have hBAnil : ((buildSuiteLoop specs rows []).filter (fun c => c.isPowerCommand)).filter
      (fun c => !c.isPowerCommand) = [] := by
    apply List.filter_eq_nil_iff.mpr
    intro c hc
    have := (List.mem_filter.mp hc).2
    simp [this]
  refine ⟨?_, ?_, ?_⟩
  · intro code spec hlook hany
    have hfilterL : (buildSuiteLoop specs rows []).filter (genCaseFor code) =
        (List.range 101).map (fun v => buildGeneratedNumericCase spec v .generated) := by
      have h := suiteLoop_filter_gen specs code spec hwf hlook rows []
      simpa [show (([] : List String).contains code) = false from rfl, hany] using h
    rw [hres, List.filter_append]
    have h1 : ((buildSuiteLoop specs rows []).filter (fun c => !c.isPowerCommand)).filter
        (genCaseFor code) = (buildSuiteLoop specs rows []).filter (genCaseFor code) := by
      rw [List.filter_filter]
      apply List.filter_congr
      intro c hc
      by_cases hg : genCaseFor code c = true
      · have hsrc : c.source = CaseSource.generated := by
          have hpair := (Bool.and_eq_true _ _).mp hg
          exact beq_iff_eq.mp hpair.1
        have hp := suiteLoop_generated_not_power specs rows [] c hc hsrc
        simp [hg, hp]
      · rw [Bool.not_eq_true] at hg
        simp [hg]
    have h2 : ((buildSuiteLoop specs rows []).filter (fun c => c.isPowerCommand)).filter
        (genCaseFor code) = [] := by
      rw [List.filter_filter]
      apply List.filter_eq_nil_iff.mpr
      intro c hc
      rw [Bool.not_eq_true]
      by_cases hg : genCaseFor code c = true
      · have hsrc : c.source = CaseSource.generated := by
          have hpair := (Bool.and_eq_true _ _).mp hg
          exact beq_iff_eq.mp hpair.1
        have hp := suiteLoop_generated_not_power specs rows [] c hc hsrc
        simp [hg, hp]
      · rw [Bool.not_eq_true] at hg
        simp [hg]
    rw [h1, h2, hfilterL, List.append_nil]
  · rw [hres, List.filter_append]
    have htA : ((buildSuiteLoop specs rows []).filter (fun c => !c.isPowerCommand)).filter
        (fun c => c.source == CaseSource.truth) =
        ((buildSuiteLoop specs rows []).filter (fun c => c.source == CaseSource.truth)).filter
          (fun c => !c.isPowerCommand) := by
      rw [List.filter_filter, List.filter_filter]
      apply List.filter_congr
      intro c _
      exact Bool.and_comm _ _
    have htB : ((buildSuiteLoop specs rows []).filter (fun c => c.isPowerCommand)).filter
        (fun c => c.source == CaseSource.truth) =
        ((buildSuiteLoop specs rows []).filter (fun c => c.source == CaseSource.truth)).filter
          (fun c => c.isPowerCommand) := by
      rw [List.filter_filter, List.filter_filter]
      apply List.filter_congr
      intro c _
      exact Bool.and_comm _ _
    have hperm2 : List.Perm
        (((buildSuiteLoop specs rows []).filter (fun c => c.source == CaseSource.truth)).filter
            (fun c => !c.isPowerCommand) ++
          ((buildSuiteLoop specs rows []).filter (fun c => c.source == CaseSource.truth)).filter
            (fun c => c.isPowerCommand))
        ((buildSuiteLoop specs rows []).filter (fun c => c.source == CaseSource.truth)) := by
      simpa using List.filter_append_perm (fun c => !c.isPowerCommand)
        ((buildSuiteLoop specs rows []).filter (fun c => c.source == CaseSource.truth))
    rw [htA, htB, ← suiteLoop_filter_truth specs rows []]
    exact hperm2
  · rw [hres, List.filter_append, List.filter_append, hAself, hBself, hABnil, hBAnil]
    simp

/-- Claim C6 witness: a two-row truth set (one `C203` row, one plain row)
produces exactly the 101-case sweep for `C203` plus one truth case, with
the power suffix property. -/
theorem c6_witness :
    specsWF c6WitnessSpecs
    ∧ (buildSuiteCases c6WitnessRows c6WitnessSpecs).filter (genCaseFor "C203") =
        (List.range 101).map (fun v => buildGeneratedNumericCase c6VolumeSpec v .generated)
    ∧ buildSuiteCases c6WitnessRows c6WitnessSpecs =
        (buildSuiteCases c6WitnessRows c6WitnessSpecs).filter (fun c => !c.isPowerCommand) ++
          (buildSuiteCases c6WitnessRows c6WitnessSpecs).filter (fun c => c.isPowerCommand) :=
  ⟨by unfold specsWF; decide,
   (c6_suite_composition c6WitnessRows c6WitnessSpecs (by unfold specsWF; decide)).1 "C203"
     c6VolumeSpec (by decide) (by decide),
   (c6_suite_composition c6WitnessRows c6WitnessSpecs (by unfold specsWF; decide)).2.2⟩

/-- Claim C6 counterexample: a disruptive-text sleep row that is not a
power command stays in front of a later non-disruptive case — the suite
builder moves only power cases (`isPowerCommand`) to the end, so
power/disruptive cases do not all appear after all other cases. -/
theorem c6_counterexample :
    (buildSuiteCases [c6SleepRow, c6PlainRow] []).map
        (fun c => (c.isPowerCommand, c.isDisruptiveCommand)) = [(false, true), (false, false)]
    ∧ ¬(buildSuiteCases [c6SleepRow, c6PlainRow] [] =
        (buildSuiteCases [c6SleepRow, c6PlainRow] []).filter
            (fun c => !(c.isPowerCommand || c.isDisruptiveCommand)) ++
          (buildSuiteCases [c6SleepRow, c6PlainRow] []).filter
            (fun c => c.isPowerCommand || c.isDisruptiveCommand)) := by
  refine ⟨by decide, by decide⟩

/-- Every spec produced by `deriveNumericSpecsGo` is keyed by its own
code, uses value offset 38 and checksum offset 39, and its baseline is
exactly 40 bytes (the thrown configuration errors enforce this). -/
theorem deriveNumericSpecsGo_wf (bySetCode : List (String × List TruthRow)) :
    ∀ (codes : List String) (specs : List (String × NumericSpec)),
      deriveNumericSpecsGo bySetCode codes = .ok specs →
      ∀ p ∈ specs, p.1 ∈ codes ∧ p.2.setCode = p.1 ∧ p.2.valueIndex = 38 ∧
        p.2.checksumIndex = 39 ∧ p.2.baseRow.requestBytes.length = 40 := by
  intro codes
  induction codes with
  | nil =>
    intro specs h p hp
    simp only [deriveNumericSpecsGo] at h
    cases h
    cases hp
  | cons code rest ih =>
    intro specs h p hp
    simp only [deriveNumericSpecsGo] at h
    rcases hrows : (lookupRows bySetCode code).getD [] with _ | ⟨baseRow, other⟩
    · simp only [hrows] at h
      have hrec := ih specs h p hp
      exact ⟨List.mem_cons_of_mem _ hrec.1, hrec.2⟩
    · rcases hman : numericValueIndexBySet code with _ | ⟨vi, ci⟩
      · simp only [hrows, hman] at h
        exact Except.noConfusion h
      · simp only [hrows, hman] at h
        have hvi : vi = 38 ∧ ci = 39 := by
          unfold numericValueIndexBySet at hman
          by_cases hc : numericSetCodes.contains code
          · rw [if_pos hc] at hman
            have := Option.some.inj hman
            exact ⟨(Prod.mk.injEq _ _ _ _ ▸ this).1.symm, (Prod.mk.injEq _ _ _ _ ▸ this).2.symm⟩
          · rw [if_neg hc] at hman
            cases hman
        by_cases hb : (decide (baseRow.requestBytes.length ≤ vi) ||
            decide (baseRow.requestBytes.length ≤ ci)) = true
        · rw [if_pos hb] at h
          cases h
        · rw [if_neg hb] at h
          by_cases hck : (!(ci == baseRow.requestBytes.length - 1)) = true
          · rw [if_pos hck] at h
            cases h
          · rw [if_neg hck] at h
            rcases hgo : deriveNumericSpecsGo bySetCode rest with e | tail
            · simp only [hgo] at h
              exact Except.noConfusion h
            · simp only [hgo, Except.ok.injEq] at h
              subst h
              rcases List.mem_cons.mp hp with hph | hph
              · subst hph
                obtain ⟨hvi1, hvi2⟩ := hvi
                subst hvi1
                subst hvi2
                simp at hb hck
                refine ⟨List.mem_cons_self _ _, rfl, rfl, rfl, ?_⟩
                simp only []
                omega
              · have hrec := ih tail hgo p hph
                exact ⟨List.mem_cons_of_mem _ hrec.1, hrec.2⟩
